import Mathlib

/-!
# xll_sqlite: value codec, type inference and parameter binding

A shallow embedding of `xll_sqlite.h` and `xll_sqlite_table.cpp`.

* C++ `double` values are the rationals they denote; every arithmetic
  operation is followed by `fl`, rounding to the nearest binary64 value
  (ties to even).  Infinities and NaN are outside the model.
* Spreadsheet cells are the scalar `OPER` kinds; a two-dimensional `OPER`
  (`xltypeMulti`) is a `Multi`: row count, column count and the row-major
  cell list.  Cells of a grid are never grids themselves, and a scalar
  argument is seen as the 1-by-1 grid of its cell.
* The collaborators that live outside the two source files (date parser,
  `_mkgmtime`, `sqlite::type`, the cell's `operator bool`, `to_string`) are
  the fields of `Host`; theorems quantify over every host.
* A prepared statement is seen through its accessors (`stmt`); the bind calls
  and warnings that `sqlite_bind` issues are collected as a list of `Event`s.
* A statement being executed is a `stepped_stmt`: the rows its steps yield and
  the status that ends them. `sqlite_exec` returns a `Result` or raises.
* `xll_sqlite_create_table` returns its handle together with the list of
  `Call`s it made (engine statements, binds, steps, the error report); the
  engine's answers are the fields of `Engine`, the further library members it
  uses those of `Library`. A read past the cells of a grid, or a write past
  the digit buffer of `itoa`, ends the call.
-/

namespace XllSqlite

/-! ## binary64 arithmetic -/

/-- A finite C++ `double`, as the rational number it denotes. -/
abbrev double := ℚ

/-- Number of binary digits of `n`; `fuel` bounds the halving depth. -/
def bitLength : Nat → Nat → Nat
  | 0, _ => 0
  | fuel + 1, n => if n = 0 then 0 else bitLength fuel (n / 2) + 1

/-- Nearest integer to `n / d` for `d > 0`, a tie going to the even neighbour. -/
def roundHalfEven (n : Int) (d : Nat) : Int :=
  let q := n / (d : Int)
  let r := n % (d : Int)
  if 2 * r < d then q
  else if (d : Int) < 2 * r then q + 1
  else if q % 2 = 0 then q else q + 1

/-- The exponent `e` with `2^e ≤ a / b < 2^(e+1)`, for positive `a` and `b`. -/
def binExponent (a b : Nat) : Int :=
  let e : Int := (bitLength a a : Int) - (bitLength b b : Int)
  if 0 ≤ e then (if a < b * 2 ^ e.toNat then e - 1 else e)
  else (if a * 2 ^ (-e).toNat < b then e - 1 else e)

/-- Round a rational to the nearest binary64 value, ties to even: 53
significant bits, the unit in the last place never below `2^-1074`. -/
def fl (x : ℚ) : double :=
  if x.num = 0 then 0
  else
    let e := binExponent x.num.natAbs x.den
    let s := max (e - 52) (-1074)
    if 0 ≤ s then
      ((roundHalfEven x.num (x.den * 2 ^ s.toNat) * (2 : Int) ^ s.toNat : Int) : ℚ)
    else
      mkRat (roundHalfEven (x.num * (2 : Int) ^ (-s).toNat) x.den) (2 ^ (-s).toNat)

/-- The integer part of a rational, rounding toward zero. -/
def truncate (x : ℚ) : Int :=
  if 0 ≤ x.num then x.num / (x.den : Int) else -((-x.num) / (x.den : Int))

/-- The conversion `static_cast<time_t>(double)`, `time_t` being a 64-bit
signed integer: truncation toward zero when the result fits; for a value
outside the 64-bit range the conversion is undefined in C++ and the x86
instruction the add-in is compiled to gives the smallest 64-bit integer. -/
def truncToInt (x : double) : Int :=
  if -(2 : Int) ^ 63 ≤ truncate x ∧ truncate x < (2 : Int) ^ 63 then truncate x
  else -(2 : Int) ^ 63

/-! ## Cells and grids -/

/-- The `xltype` tag of a cell. -/
inductive xltype where
  | xltypeNum | xltypeStr | xltypeBool | xltypeErr | xltypeMulti
  | xltypeMissing | xltypeNil | xltypeInt | xltypeBigData
  deriving DecidableEq, Repr

/-- A scalar spreadsheet value. -/
inductive OPER where
  | num (x : double)
  | str (s : String)
  | bool (xbool : Bool)
  | err (code : Nat)
  | missing
  | nil
  | int (w : Int)
  | bigdata (bytes : String)
  deriving DecidableEq, Repr

/-- The tag `o.type()` / `o.xltype`. -/
def OPER.type : OPER → xltype
  | .num _ => .xltypeNum
  | .str _ => .xltypeStr
  | .bool _ => .xltypeBool
  | .err _ => .xltypeErr
  | .missing => .xltypeMissing
  | .nil => .xltypeNil
  | .int _ => .xltypeInt
  | .bigdata _ => .xltypeBigData

/-- Excel's `xlerrValue` error code. -/
def xlerrValue : Nat := 15

/-- The `#VALUE!` error cell. -/
def ErrValue : OPER := OPER.err xlerrValue

/-- Modelled from the spec: the `OPER` constructor applied to an engine
integer, which is not among the two source files; section 4.1 has
"Integer → Number cell holding the integer's value". -/
def OPER.ofInt (w : Int) : OPER := OPER.num (w : ℚ)

/-- A two-dimensional `OPER`: `rows`, `columns` and the row-major cells. -/
structure Multi where
  rows : Nat
  columns : Nat
  array : List OPER
  deriving DecidableEq, Repr

/-- The member `size()`. -/
def Multi.size (o : Multi) : Nat := o.rows * o.columns

/-- The subscript `o[k]`; `none` when `k` is past the cells. -/
def Multi.item (o : Multi) (k : Nat) : Option OPER := o.array.get? k

/-- The call `o(i, j)`, the cell at row `i` and column `j`. -/
def Multi.cell (o : Multi) (i j : Nat) : Option OPER := o.item (i * o.columns + j)

/-- A grid holds exactly `rows * columns` cells. -/
def Multi.wellFormed (o : Multi) : Prop := o.array.length = o.rows * o.columns

/-- The member `resize(r, c)` of the cell library, which is not among the two
source files: the grid becomes `r` by `c`, keeps the cells it had in row-major
order and fills what is new with `Nil`. -/
def Multi.resize (o : Multi) (r c : Nat) : Multi :=
  ⟨r, c, (o.array ++ List.replicate (r * c) OPER.nil).take (r * c)⟩

/-- Replace cell `k`, the assignment `o[k] = v`. -/
def Multi.setItem (o : Multi) (k : Nat) (v : OPER) : Multi :=
  { o with array := o.array.set k v }

/-! ## Engine types -/

/-- The column type codes: the five of `sqlite3.h`, the three extended codes
of the wrapper, and any further code. -/
inductive SqliteType where
  | SQLITE_INTEGER | SQLITE_FLOAT | SQLITE_TEXT | SQLITE_BLOB | SQLITE_NULL
  | SQLITE_NUMERIC | SQLITE_DATETIME | SQLITE_BOOLEAN
  | other (code : Int)
  deriving DecidableEq, Repr

export SqliteType (SQLITE_INTEGER SQLITE_FLOAT SQLITE_TEXT SQLITE_BLOB SQLITE_NULL
  SQLITE_NUMERIC SQLITE_DATETIME SQLITE_BOOLEAN)

/-- The C `struct tm` fields the date code fills. -/
structure tm where
  tm_year : Int
  tm_mon : Int
  tm_mday : Int
  tm_hour : Int
  tm_min : Int
  tm_sec : Int
  deriving DecidableEq, Repr

/-- What `stmt.column_datetime(i)` returns: the storage sub-kind `type` and the
members `value.i` and `value.f` of its union. -/
structure datetime where
  type : SqliteType
  value_i : Int
  value_f : double

/-- A prepared statement positioned on a row, seen through the accessors the
two source files call. -/
structure stmt where
  type : Nat → SqliteType
  column_int : Nat → Int
  column_double : Nat → double
  column_text : Nat → String
  column_bytes : Nat → Nat
  columns_boolean : Nat → Bool
  column_datetime : Nat → datetime
  bind_parameter_index : String → Nat

/-- The collaborators defined outside the two source files. -/
structure Host where
  /-- The date parser `fms::parse_tm`, the spec's `try_parse_datetime`. -/
  parse_tm : String → Option tm
  /-- The C runtime's `_mkgmtime`. -/
  mkgmtime : tm → Int
  /-- The lookup `sqlite::type(const char*)`: type code of a type name. -/
  type : String → SqliteType
  /-- The cell's `operator bool`; `!v` is its negation. -/
  truthy : OPER → Bool
  /-- The conversion `to_string(const OPER&)`. -/
  to_string : OPER → String

/-! ## xll_sqlite.h -/

/-- The table `sqlite_name` generated from `XLL_SQLITE_TYPE`; a tag that is
not a key reads as the null pointer, `none`. -/
def sqlite_name : xltype → Option String
  | .xltypeInt => some "INTEGER"
  | .xltypeBool => some "BOOLEAN"
  | .xltypeNum => some "FLOAT"
  | .xltypeStr => some "TEXT"
  | .xltypeBigData => some "BLOB"
  | .xltypeNil => some "NULL"
  | _ => none

/-- The function `to_julian`: `25569. + t / 86400.` in binary64. -/
def to_julian (t : Int) : double := fl (25569 + fl (fl (t : ℚ) / 86400))

/-- The function `to_time`: `(d - 25569) * 86400` in binary64, then truncated. -/
def to_time (d : double) : Int := truncToInt (fl (fl (d - 25569) * 86400))

/-- The bytes `fms::view(stmt.column_text(i), stmt.column_bytes(i))`. -/
def stmt.text_view (s : stmt) (i : Nat) : String :=
  String.mk ((s.column_text i).data.take (s.column_bytes i))

/-- The function `column`: convert column `i` of the current row to a cell. -/
def column (H : Host) (s : stmt) (i : Nat) : OPER :=
  match s.type i with
  | SQLITE_NULL => OPER.str ""
  | SQLITE_INTEGER => OPER.ofInt (s.column_int i)
  | SQLITE_FLOAT => OPER.num (s.column_double i)
  | SQLITE_NUMERIC => OPER.num (s.column_double i)
  | SQLITE_TEXT => OPER.str (s.text_view i)
  | SQLITE_BOOLEAN => OPER.bool (s.columns_boolean i)
  | SQLITE_DATETIME =>
    let dt := s.column_datetime i
    if dt.type = SQLITE_TEXT then
      if s.column_bytes i = 0 then OPER.str ""
      else
        match H.parse_tm (s.text_view i) with
        | some t => OPER.num (to_julian (H.mkgmtime t))
        | none => ErrValue
    else if dt.type = SQLITE_INTEGER then
      let t := dt.value_i
      -- a zero `t` leaves the `if` and the `switch` for the final `return ErrValue`
      if t ≠ 0 then OPER.num (to_julian t) else ErrValue
    else if dt.type = SQLITE_FLOAT then
      OPER.num (fl (dt.value_f - 2440587.5))
    else ErrValue
  | _ => ErrValue

/-- The value handed to one of the `stmt.bind` overloads. -/
inductive Bound where
  | double (x : double)
  | text (s : String)
  | null
  | boolean (b : Bool)
  | integer (n : Int)
  deriving DecidableEq, Repr

/-- What `sqlite_bind` does to the outside: a warning, or a bind call
`stmt.bind(pi, ...)` at position `pi`. -/
inductive Event where
  | warning (msg : String)
  | bind (pi : Nat) (v : Bound)
  deriving DecidableEq, Repr

deriving instance DecidableEq for Except

/-- The name handed to `bind_parameter_index`: a `':'` is inserted in front
unless the first character already is `':'`. -/
def parameter_name (name : String) : String :=
  if name.data.head? ≠ some ':' then ":" ++ name else name

/-- The tail of the loop body of `sqlite_bind`: bind `vali` at `pi` by its kind. -/
def bind_value (pi : Nat) (vali : OPER) : Except String Event :=
  match vali with
  | .num x => .ok (.bind pi (.double x))
  | .str s => .ok (.bind pi (.text s))
  | .nil => .ok (.bind pi .null)
  | .bool b => .ok (.bind pi (.boolean b))
  | _ => .error "sqlite_bind: value to bind must be number, string, or null"

/-- A cell read that must succeed: an index past the cells raises. -/
def cell_or_raise (c : Option OPER) : Except String OPER :=
  match c with
  | some v => .ok v
  | none => .error "index out of range"

/-- The selection `pi ? val(i, 1) : val[i]` followed by the bind. -/
def bind_selected (val : Multi) (i pi : Nat) : Except String Event :=
  match cell_or_raise (if pi ≠ 0 then val.cell i 1 else val.item i) with
  | .ok vali => bind_value pi vali
  | .error e => .error e

/-- One pass of the loop body of `sqlite_bind`, for index `i`. -/
def sqlite_bind_row (H : Host) (s : stmt) (val : Multi) (i : Nat) : Except String (List Event) :=
  if val.columns = 2 then
    match cell_or_raise (val.cell i 0) with
    | .error e => .error e
    | .ok name_cell =>
      if !H.truthy name_cell then .ok []
      else
        let name := parameter_name (H.to_string name_cell)
        let pi := s.bind_parameter_index name
        let warned := if pi = 0 then [Event.warning (name ++ ": not found")] else []
        match bind_selected val i pi with
        | .ok e => .ok (warned ++ [e])
        | .error e => .error e
  else
    match cell_or_raise (val.item i) with
    | .error e => .error e
    | .ok vi =>
      if !H.truthy vi then .ok []
      else
        match bind_selected val i (i + 1) with
        | .ok e => .ok [e]
        | .error e => .error e

/-- The loop of `sqlite_bind` over the indices `is`, stopping at the first raise. -/
def sqlite_bind_loop (H : Host) (s : stmt) (val : Multi) : List Nat → Except String (List Event)
  | [] => .ok []
  | i :: is =>
    match sqlite_bind_row H s val i with
    | .error e => .error e
    | .ok done =>
      match sqlite_bind_loop H s val is with
      | .error e => .error e
      | .ok more => .ok (done ++ more)

/-- The function `sqlite_bind`: the events it issues, or the raise. -/
def sqlite_bind (H : Host) (s : stmt) (val : Multi) : Except String (List Event) :=
  let n := if val.columns = 2 then val.rows else val.size
  sqlite_bind_loop H s val (List.range n)

/-! ## xll_sqlite_table.cpp -/

/-- The function `common_type`. -/
def common_type (H : Host) (a b : String) : String :=
  let ta := H.type a
  let tb := H.type b
  if ta = tb then a
  else
    match ta with
    | SQLITE_INTEGER =>
      match tb with
      | SQLITE_FLOAT => b
      | SQLITE_TEXT => b
      | SQLITE_DATETIME => b
      | _ => a
    | SQLITE_FLOAT =>
      match tb with
      | SQLITE_TEXT => b
      | SQLITE_DATETIME => b
      | _ => a
    | SQLITE_TEXT =>
      match tb with
      | SQLITE_DATETIME => b
      | _ => a
    | _ => a

/-- The one-argument `guess_type`: type name of a single cell; `none` is the
null pointer `sqlite_name` gives for a tag it has no entry for. -/
def OPER.guess_type (H : Host) (o : OPER) : Option String :=
  match o with
  | .str s => if (H.parse_tm s).isSome then some "DATETIME" else sqlite_name o.type
  | _ => sqlite_name o.type

/-- One pass of the loop of the three-argument `guess_type`, for row `i`;
`none` when a cell or a type name is missing. -/
def guess_type_step (H : Host) (o : Multi) (col : Nat) (type : Option String) (i : Nat) :
    Option String :=
  match type, o.cell i col with
  | some type, some c =>
    match sqlite_name c.type with
    | some typei => if type ≠ typei then some (common_type H type typei) else some type
    | none => none
  | _, _ => none

/-- The three-argument `guess_type`: start from row 0, then rows `1 .. rows-1`. -/
def Multi.guess_type (H : Host) (o : Multi) (col rows : Nat) : Option String :=
  (List.range' 1 (rows - 1)).foldl (guess_type_step H o col)
    (match o.cell 0 col with
     | some c => c.guess_type H
     | none => none)

/-- One pass of the loop of `xll_sqlite_types`: `o[j] = guess_type(o, j, rows)`. -/
def xll_sqlite_types_step (H : Host) (rows : Nat) (o : Option Multi) (j : Nat) : Option Multi :=
  match o with
  | none => none
  | some o =>
    match o.guess_type H j rows with
    | some name => some (o.setItem j (OPER.str name))
    | none => none

/-- The function `xll_sqlite_types`. The static result `o` is state: its value
on entry is an argument and the value returned is also its value on exit. -/
def xll_sqlite_types (H : Host) (o : Multi) (po : Multi) (rows : Nat) : Option Multi :=
  let rows := if rows = 0 then po.rows % 65536 else rows
  let o := o.resize 1 po.size
  (List.range o.columns).foldl (xll_sqlite_types_step H rows) (some o)

/-- The static `OPER o` before the first call: a single `Nil` cell. -/
def static_o : Multi := ⟨1, 1, [OPER.nil]⟩

/-! ## The claims' own definitions -/

/-- The natural type of a cell as the spec words it: Number is FLOAT, Boolean
is BOOLEAN, Empty is NULL, a Text is DATETIME when it parses as a calendar
date/time and TEXT otherwise. -/
def natural_type (H : Host) (o : OPER) : Option String :=
  match o with
  | .num _ => some "FLOAT"
  | .bool _ => some "BOOLEAN"
  | .nil => some "NULL"
  | .str s => if (H.parse_tm s).isSome then some "DATETIME" else some "TEXT"
  | _ => none

/-- One step of the spec's fold: a natural type that differs from the running
type replaces it by the common type of the two. -/
def fold_step (H : Host) (o : Multi) (col : Nat) (type : Option String) (i : Nat) :
    Option String :=
  match type, o.cell i col with
  | some type, some c =>
    match natural_type H c with
    | some typei => if type ≠ typei then some (common_type H type typei) else some type
    | none => none
  | _, _ => none

/-- The spec's inference: the left fold of the common type over the natural
types of rows `0 .. rows-1` of column `col`. -/
def fold_natural_types (H : Host) (o : Multi) (col rows : Nat) : Option String :=
  (List.range' 1 (rows - 1)).foldl (fold_step H o col)
    (match o.cell 0 col with
     | some c => natural_type H c
     | none => none)

/-- The order INTEGER < FLOAT < TEXT < DATETIME as a rank; every other code
has rank 0. -/
def type_rank : SqliteType → Nat
  | SQLITE_INTEGER => 1
  | SQLITE_FLOAT => 2
  | SQLITE_TEXT => 3
  | SQLITE_DATETIME => 4
  | _ => 0

/-- The code is one of INTEGER, FLOAT, TEXT, DATETIME. -/
def is_ranked (t : SqliteType) : Prop :=
  t = SQLITE_INTEGER ∨ t = SQLITE_FLOAT ∨ t = SQLITE_TEXT ∨ t = SQLITE_DATETIME

/-- The statement an engine that returns exactly what was bound presents for
a column holding the bound value `v`. -/
def stmt_of_bound (v : Bound) : stmt where
  type := fun _ =>
    match v with
    | .double _ => SQLITE_FLOAT
    | .text _ => SQLITE_TEXT
    | .null => SQLITE_NULL
    | .boolean _ => SQLITE_BOOLEAN
    | .integer _ => SQLITE_INTEGER
  column_int := fun _ => match v with | .integer n => n | _ => 0
  column_double := fun _ => match v with | .double x => x | _ => 0
  column_text := fun _ => match v with | .text s => s | _ => ""
  column_bytes := fun _ => match v with | .text s => s.data.length | _ => 0
  columns_boolean := fun _ => match v with | .boolean b => b | _ => false
  column_datetime := fun _ => ⟨SQLITE_NULL, 0, 0⟩
  bind_parameter_index := fun _ => 0

/-! ## A reference host -/

/-- Value of a decimal digit character. -/
def digit_value (c : Char) : Option Nat :=
  if c.isDigit then some (c.toNat - 48) else none

/-- Value of a list of decimal digits. -/
def digits_value : List Char → Option Nat
  | [] => none
  | cs => cs.foldl (fun acc c =>
      match acc, digit_value c with
      | some n, some d => some (10 * n + d)
      | _, _ => none) (some 0)

/-- A date parser that accepts exactly the form `YYYY-MM-DD`. -/
def parse_iso_date (s : String) : Option tm :=
  match s.data with
  | [y1, y2, y3, y4, '-', m1, m2, '-', d1, d2] =>
    match digits_value [y1, y2, y3, y4], digits_value [m1, m2], digits_value [d1, d2] with
    | some y, some m, some d =>
      if 1 ≤ m ∧ m ≤ 12 ∧ 1 ≤ d ∧ d ≤ 31 then
        some ⟨(y : Int) - 1900, (m : Int) - 1, d, 0, 0, 0⟩
      else none
    | _, _, _ => none
  | _ => none

/-- Seconds since 1970-01-01T00:00:00Z of a broken-down UTC time. -/
def gmtime_seconds (t : tm) : Int :=
  let m := t.tm_mon + 1
  let y := t.tm_year + 1900 - (if m ≤ 2 then 1 else 0)
  let era := y / 400
  let yoe := y - era * 400
  let doy := (153 * (m + (if 2 < m then -3 else 9)) + 2) / 5 + t.tm_mday - 1
  let doe := yoe * 365 + yoe / 4 - yoe / 100 + doy
  let days := era * 146097 + doe - 719468
  ((days * 24 + t.tm_hour) * 60 + t.tm_min) * 60 + t.tm_sec

/-- The seven type names of the spec's glossary and their codes. -/
def name_type (s : String) : SqliteType :=
  if s = "INTEGER" then SQLITE_INTEGER
  else if s = "FLOAT" then SQLITE_FLOAT
  else if s = "TEXT" then SQLITE_TEXT
  else if s = "BLOB" then SQLITE_BLOB
  else if s = "NULL" then SQLITE_NULL
  else if s = "DATETIME" then SQLITE_DATETIME
  else if s = "BOOLEAN" then SQLITE_BOOLEAN
  else .other 0

/-- A host to evaluate the embedding on: ISO dates, the glossary's type names,
a cell is true unless it is zero, FALSE, the empty text or not a value, and
the text of a cell is its string. -/
def reference_host : Host where
  parse_tm := parse_iso_date
  mkgmtime := gmtime_seconds
  type := name_type
  truthy := fun o =>
    match o with
    | .num x => decide (x ≠ 0)
    | .str s => decide (s ≠ "")
    | .bool b => b
    | .int w => decide (w ≠ 0)
    | _ => false
  to_string := fun o =>
    match o with
    | .str s => s
    | .bool b => if b then "TRUE" else "FALSE"
    | .int w => toString w
    | .num x => if x.den = 1 then toString x.num else toString x.num ++ "/" ++ toString x.den
    | _ => ""

/-- A statement whose only named parameter is `:limit`, at position 1. -/
def limit_stmt : stmt :=
  { stmt_of_bound .null with
    bind_parameter_index := fun name => if name = ":limit" then 1 else 0 }

/-! ## Result materializer (xll_sqlite.h) -/

/-- What `stmt.step()` returns once the rows are used up: `SQLITE_DONE`, or an
error code of the engine (`step` never returns `SQLITE_OK`). -/
inductive StepEnd where
  | SQLITE_DONE
  | error (code : Int)
  deriving DecidableEq, Repr

/-- A statement as `sqlite_exec` drives it: its address, its column count and
names, the rows that successive `step()` calls yield (`SQLITE_ROW` each, the
statement positioned on the row), and what the step after the last row returns. -/
structure stepped_stmt where
  address : Nat
  column_count : Nat
  column_name : Nat → String
  rows : List stmt
  last : StepEnd

/-- What `sqlite_exec` returns: the untouched `OPER result`, the handle
`to_handle<sqlite::stmt>(&stmt)`, or a grid. -/
inductive Result where
  | nil
  | handle (address : Nat)
  | grid (m : Multi)
  deriving DecidableEq, Repr

/-- Modelled from the spec: the macro `FMS_SQLITE_OK`, which is not among the
two source files; section 4.3 has "Any immediate error status (neither row nor
done) on the very first step is a fatal engine error". The text raised for an
error code. -/
def engine_error (code : Int) : String := "sqlite error " ++ toString code

/-- The member `push_bottom(row)` of the cell library, which is not among the
two source files: a result that is not yet a grid becomes the row, a grid gets
the cells of the row appended below. -/
def push_bottom (result : Result) (row : Multi) : Result :=
  match result with
  | .grid m => .grid ⟨m.rows + row.rows, m.columns, m.array ++ row.array⟩
  | _ => .grid row

/-- The header cells: `row[i] = stmt.column_name(i)` for `i < c`. -/
def header_cells (e : stepped_stmt) : List OPER :=
  (List.range e.column_count).map (fun i => OPER.str (e.column_name i))

/-- The cells of the current row: `row[i] = column(stmt, i)` for `i < c`. -/
def row_cells (H : Host) (e : stepped_stmt) (s : stmt) : List OPER :=
  (List.range e.column_count).map (fun i => column H s i)

/-- The function `sqlite_exec`. -/
def sqlite_exec (H : Host) (e : stepped_stmt) (no_headers : Bool) : Except String Result :=
  match e.rows with
  | [] =>
    match e.last with
    | .SQLITE_DONE => .ok (.handle e.address)
    | .error code => .error (engine_error code)
  | first :: rest =>
    let result : Result :=
      if !no_headers then push_bottom .nil ⟨1, e.column_count, header_cells e⟩ else .nil
    let result := (first :: rest).foldl
      (fun result s => push_bottom result ⟨1, e.column_count, row_cells H e s⟩) result
    match e.last with
    | .SQLITE_DONE => .ok result
    | .error _ => .error "sqlite_exec: step not done"

/-- The function `sqlite_exec_mem`: the cells are pushed back one by one and
the flat result is reshaped to `size / c` rows of `c` columns. -/
def sqlite_exec_mem (H : Host) (e : stepped_stmt) (no_headers : Bool) : Except String Result :=
  match e.rows with
  | [] =>
    match e.last with
    | .SQLITE_DONE => .ok (.handle e.address)
    | .error code => .error (engine_error code)
  | first :: rest =>
    let c := e.column_count
    let result : List OPER :=
      if !no_headers then (header_cells e).foldl (fun result v => result ++ [v]) [] else []
    let result := (first :: rest).foldl
      (fun result s => (row_cells H e s).foldl (fun result v => result ++ [v]) result) result
    match e.last with
    | .SQLITE_DONE => .ok (.grid ⟨result.length / c, c, result⟩)
    | .error _ => .error "sqlite_exec_mem: step not done"

/-! ## Table builder (xll_sqlite_table.cpp) -/

/-- The function `type_name` of xll_sqlite.h: the type name of a single cell;
`none` is the null pointer `sqlite_name` gives for a tag it has no entry for. -/
def type_name (H : Host) (o : OPER) : Option String :=
  match o with
  | .str s => if (H.parse_tm s).isSome then some "DATETIME" else sqlite_name o.type
  | _ => sqlite_name o.type

/-- An `OPER` argument passed by pointer: one cell or a grid. -/
inductive LPOPER where
  | scalar (c : OPER)
  | multi (m : Multi)
  deriving DecidableEq, Repr

/-- The argument through the grid accessors `rows`, `columns`, `size`, `o[k]`
and `o(i, j)`: a scalar is the 1-by-1 grid of its cell. -/
def LPOPER.grid : LPOPER → Multi
  | .scalar c => ⟨1, 1, [c]⟩
  | .multi m => m

/-- The member `is_missing()`: the argument was left out. -/
def LPOPER.is_missing : LPOPER → Bool
  | .scalar .missing => true
  | _ => false

/-- The collaborators that xll_sqlite_table.cpp needs beyond those of `Host`. -/
structure Library extends Host where
  /-- The `operator bool` of a grid. -/
  multi_truthy : Multi → Bool
  /-- The member `as_num()` on a cell that is not a Number. -/
  as_num : OPER → double

/-- The `operator bool` of an argument. -/
def LPOPER.truthy (L : Library) : LPOPER → Bool
  | .scalar c => L.truthy c
  | .multi m => L.multi_truthy m

/-- The member `as_num()`: the number of a Number cell, the library's
conversion for the other kinds. -/
def as_num (L : Library) : OPER → double
  | .num d => d
  | o => L.as_num o

/-- Excel's `UPPER`, called as `Excel(xlfUpper, o)`: a text in upper case, an
error as it is, an empty cell as the empty text, anything else as the upper
case of its text. -/
def xlfUpper (H : Host) (o : OPER) : OPER :=
  match o with
  | .str s => .str (String.mk (s.data.map Char.toUpper))
  | .err e => .err e
  | .nil => .str ""
  | .missing => .str ""
  | o => .str (String.mk ((H.to_string o).data.map Char.toUpper))

/-- Excel's `LEFT`, called as `Excel(xlfLeft, o, OPER(n))`: the first `n`
characters of a text, an error as it is, an empty cell as the empty text,
anything else as the first `n` characters of its text. -/
def xlfLeft (H : Host) (o : OPER) (n : Nat) : OPER :=
  match o with
  | .str s => .str (String.mk (s.data.take n))
  | .err e => .err e
  | .nil => .str ""
  | .missing => .str ""
  | o => .str (String.mk ((H.to_string o).data.take n))

/-- A database handle as the add-in passes it around. -/
inductive HANDLEX where
  | INVALID_HANDLEX
  | handle (h : Nat)
  deriving DecidableEq, Repr

/-- The engine as `xll_sqlite_create_table` meets it: whether a handle names an
open database, and the status `sqlite3_exec` and `prepare` return for a
statement text (0 is `SQLITE_OK`; `FMS_SQLITE_OK` raises for any other). -/
structure Engine where
  db_valid : HANDLEX → Bool
  exec : String → Int
  prepare : String → Int

/-- What `xll_sqlite_create_table` does to the outside, in order. -/
inductive Call where
  | exec (sql : String)
  | prepare (sql : String)
  | bind (pi : Nat) (v : Bound)
  | step
  | reset
  | error (msg : String)
  deriving DecidableEq, Repr

/-- The calls issued so far, and the message of the exception raised, if any. -/
structure Run where
  calls : List Call
  raised : Option String
  deriving DecidableEq, Repr

/-- Sequencing: `next` runs only when `r` did not raise. -/
def Run.andThen (r next : Run) : Run :=
  match r.raised with
  | some _ => r
  | none => ⟨r.calls ++ next.calls, next.raised⟩

/-- The type cell `schema(j, 1)` when it is inferred: `type_name(data(1, j))`. -/
def inferred_type (L : Library) (data : Multi) (j : Nat) : Except String OPER :=
  match data.cell 1 j with
  | none => .error "index out of range"
  | some c =>
    match type_name L.toHost c with
    | some t => .ok (.str t)
    | none => .error "null type name"

/-- One pass of the schema loop: the name `schema(j, 0)` and the type cell
`schema(j, 1)` of column `j`. -/
def schema_entry (L : Library) (data : Multi) (pcolumns ptypes : LPOPER) (j : Nat) :
    Except String (String × OPER) :=
  match (if pcolumns.truthy L then pcolumns.grid.item j else data.cell 0 j) with
  | none => .error "index out of range"
  | some named =>
    let name := "[" ++ L.to_string named ++ "]"
    if ptypes.truthy L then
      match ptypes.grid.item j with
      | none => .error "index out of range"
      | some tj =>
        let typej := xlfUpper L.toHost tj
        if L.truthy typej then .ok (name, typej)
        else
          match inferred_type L data j with
          | .ok t => .ok (name, t)
          | .error e => .error e
    else
      match inferred_type L data j with
      | .ok t => .ok (name, t)
      | .error e => .error e

/-- The schema loop over the columns `js`. -/
def build_schema (L : Library) (data : Multi) (pcolumns ptypes : LPOPER) :
    List Nat → Except String (List (String × OPER))
  | [] => .ok []
  | j :: js =>
    match schema_entry L data pcolumns ptypes j with
    | .error e => .error e
    | .ok entry =>
      match build_schema L data pcolumns ptypes js with
      | .error e => .error e
      | .ok more => .ok (entry :: more)

/-- The text `to_string(schema, " ", ", ")`. -/
def schema_text (L : Library) (schema : List (String × OPER)) : String :=
  String.intercalate ", " (schema.map (fun entry => entry.1 ++ " " ++ L.to_string entry.2))

/-- The call `itoa(i, buf, 10)` with `char buf[4]`: the decimal digits of `i`.
With their terminator they fit the buffer only below 1000; a longer number is
written past the buffer, `none`. -/
def itoa_buf4 (i : Nat) : Option String :=
  if i < 1000 then some (toString i) else none

/-- One pass of the loop that numbers the placeholders: `ii += ", ?"` and
`ii += itoa(i, buf, 10)`. -/
def insert_text_step (ii : Option String) (i : Nat) : Option String :=
  match ii, itoa_buf4 i with
  | some ii, some digits => some (ii ++ ", ?" ++ digits)
  | _, _ => none

/-- The text of the `INSERT` with one numbered placeholder per column, for
`i = 2 .. columns`; `none` when a placeholder number overruns `buf`. -/
def insert_text (table : String) (columns : Nat) : Option String :=
  match (List.range' 2 (columns - 1)).foldl insert_text_step
      (some ("INSERT INTO [" ++ table ++ "] VALUES(?1")) with
  | some ii => some (ii ++ ")")
  | none => none

/-- The body of the inner insert loop: the bind calls for the cell `oij` of
column `j`, whose type cell is `type_j`. -/
def insert_cell (L : Library) (type_j : OPER) (j : Nat) (oij : OPER) : List Call :=
  match oij with
  | .nil => [.bind (j + 1) .null]
  | .str s =>
    if s.length = 0 then [.bind (j + 1) .null]
    else
      (match L.parse_tm s with
       | some t => [Call.bind (j + 1) (.integer (L.mkgmtime t))]
       | none => []) ++ [.bind (j + 1) (.text s)]
  | o =>
    if xlfLeft L.toHost type_j 4 = OPER.str "DATE" then
      [.bind (j + 1) (.integer (to_time (as_num L o)))]
    else [.bind (j + 1) (.double (as_num L o))]

/-- The inner loop step for column `j` of row `i`: read `data(i, j)` and bind. -/
def insert_cell_run (L : Library) (schema : List (String × OPER)) (data : Multi) (i j : Nat) :
    Run :=
  match data.cell i j, schema.get? j with
  | some oij, some entry => ⟨insert_cell L entry.2 j oij, none⟩
  | _, _ => ⟨[], some "index out of range"⟩

/-- One pass of the outer insert loop: bind every column of row `i`, then
`step` and `reset`. -/
def insert_row (L : Library) (schema : List (String × OPER)) (data : Multi) (i : Nat) : Run :=
  ((List.range data.columns).foldl
    (fun (r : Run) j => r.andThen (insert_cell_run L schema data i j)) ⟨[], none⟩).andThen
    ⟨[.step, .reset], none⟩

/-- The outer insert loop: rows `start .. rows - 1`. -/
def insert_loop (L : Library) (schema : List (String × OPER)) (data : Multi) (start : Nat) :
    Run :=
  (List.range' start (data.rows - start)).foldl
    (fun (r : Run) i => r.andThen (insert_row L schema data i)) ⟨[], none⟩

/-- The `try` block of `xll_sqlite_create_table`. -/
def xll_sqlite_create_table_try (L : Library) (E : Engine) (db : HANDLEX) (table : String)
    (pdata pcolumns ptypes : LPOPER) : Run :=
  if !pdata.truthy L then ⟨[], some "ensure: pdata && *pdata"⟩
  else if !(pcolumns.is_missing || pdata.grid.columns == pcolumns.grid.size) then
    ⟨[], some "ensure: columns(*pdata) == size(*pcolumns)"⟩
  else if !(ptypes.is_missing
      || (pdata.grid.columns == ptypes.grid.size && decide (1 < pdata.grid.rows))) then
    ⟨[], some "ensure: columns(*pdata) == size(*ptypes) && rows(*pdata) > 1"⟩
  else if !E.db_valid db then ⟨[], some "ensure: db_"⟩
  else
    let data := pdata.grid
    let dtie := "DROP TABLE IF EXISTS [" ++ table ++ "]"
    if E.exec dtie ≠ 0 then ⟨[.exec dtie], some (engine_error (E.exec dtie))⟩
    else
      match build_schema L data pcolumns ptypes (List.range data.columns) with
      | .error e => ⟨[.exec dtie], some e⟩
      | .ok schema =>
        let ct := "CREATE TABLE [" ++ table ++ "](" ++ schema_text L schema ++ ")"
        if E.exec ct ≠ 0 then ⟨[.exec dtie, .exec ct], some (engine_error (E.exec ct))⟩
        else
          match insert_text table data.columns with
          | none =>
            ⟨[.exec dtie, .exec ct, .exec "BEGIN TRANSACTION"], some "itoa: write past buf"⟩
          | some ii =>
            if E.prepare ii ≠ 0 then
              ⟨[.exec dtie, .exec ct, .exec "BEGIN TRANSACTION", .prepare ii],
                some (engine_error (E.prepare ii))⟩
            else
              (Run.mk [.exec dtie, .exec ct, .exec "BEGIN TRANSACTION", .prepare ii]
                  none).andThen
                ((insert_loop L schema data (if pcolumns.is_missing then 1 else 0)).andThen
                  ⟨[.exec "COMMIT TRANSACTION"], none⟩)

/-- The function `xll_sqlite_create_table`: the handle it returns and the calls
it issued; a raise is caught, reported with `XLL_ERROR` and answered with
`INVALID_HANDLEX`. -/
def xll_sqlite_create_table (L : Library) (E : Engine) (db : HANDLEX) (table : String)
    (pdata pcolumns ptypes : LPOPER) : HANDLEX × List Call :=
  let r := xll_sqlite_create_table_try L E db table pdata pcolumns ptypes
  match r.raised with
  | none => (db, r.calls)
  | some msg => (.INVALID_HANDLEX, r.calls ++ [.error msg])

/-- The value in effect at position `pi` after the calls: that of the last
bind call at `pi`. -/
def in_effect (calls : List Call) (pi : Nat) : Option Bound :=
  calls.foldl (fun v c =>
    match c with
    | .bind p b => if p = pi then some b else v
    | _ => v) none

/-- The number of times the prepared `INSERT` is executed: the `step` calls. -/
def executions (calls : List Call) : Nat := calls.count Call.step

/-- A library to evaluate the embedding on: the reference host, every grid is
true, and a Boolean counts as 1 or 0. -/
def reference_library : Library :=
  { reference_host with
    multi_truthy := fun _ => true
    as_num := fun o =>
      match o with
      | .bool b => if b then 1 else 0
      | .int w => (w : ℚ)
      | _ => 0 }

/-- An engine that accepts every handle and every statement. -/
def reference_engine : Engine where
  db_valid := fun db => decide (db ≠ .INVALID_HANDLEX)
  exec := fun _ => 0
  prepare := fun _ => 0

/-- The data grid of the spec's scenario A. -/
def scenario_A : Multi :=
  ⟨3, 3, [.str "id", .str "name", .str "dob",
          .num 1, .str "Alice", .str "1990-05-02",
          .num 2, .str "Bob", .str "1985-11-20"]⟩

/-! ## Shared lemmas -/

/-- The text view of a statement holding a bound text is that text. -/
theorem text_view_of_bound (t : String) (i : Nat) :
    (stmt_of_bound (.text t)).text_view i = t := by
  show String.mk (t.data.take t.data.length) = t
  rw [List.take_length]

/-- The looked-up name, with the test read positively. -/
theorem parameter_name_eq (name : String) :
    parameter_name name = if name.data.head? = some ':' then name else ":" ++ name := by
  unfold parameter_name
  by_cases h : name.data.head? = some ':' <;> simp [h]

/-- When the loop returns, every index it ran over returned, and its events
are a segment of the result. -/
theorem sqlite_bind_loop_split (H : Host) (s : stmt) (val : Multi) :
    ∀ (is : List Nat) (evs : List Event), sqlite_bind_loop H s val is = .ok evs →
      ∀ i ∈ is, ∃ r pre post, sqlite_bind_row H s val i = .ok r ∧ evs = pre ++ r ++ post := by
  intro is
  induction is with
  | nil => intro evs _ i hi; cases hi
  | cons j js ih =>
    intro evs h i hi
    unfold sqlite_bind_loop at h
    cases hj : sqlite_bind_row H s val j with
    | error e => simp [hj] at h
    | ok done =>
      cases hjs : sqlite_bind_loop H s val js with
      | error e => simp [hj, hjs] at h
      | ok more =>
        simp only [hj, hjs, Except.ok.injEq] at h
        rcases List.mem_cons.mp hi with hij | hmem
        · subst hij
          exact ⟨done, [], more, hj, by simp [← h]⟩
        · obtain ⟨r, pre, post, hr, hsplit⟩ := ih more hjs i hmem
          exact ⟨r, done ++ pre, post, hr, by simp [← h, hsplit]⟩

/-- On the four kinds that have a natural type, the one-argument `guess_type`
gives that type. -/
theorem guess_type_of_natural_type (H : Host) (c : OPER) (R : String)
    (h : natural_type H c = some R) : c.guess_type H = some R := by
  cases c <;> simp_all [natural_type, OPER.guess_type, sqlite_name, OPER.type]

/-- A loop pass over a cell of natural type `R` keeps the running type `R`. -/
theorem guess_type_step_keeps (H : Host) (hD : H.type "DATETIME" = SQLITE_DATETIME)
    (o : Multi) (col i : Nat) (c : OPER) (R : String)
    (hc : o.cell i col = some c) (h : natural_type H c = some R) :
    guess_type_step H o col (some R) i = some R := by
  unfold guess_type_step
  rw [hc]
  cases c with
  | str t =>
    by_cases hp : (H.parse_tm t).isSome = true
    · have hR : R = "DATETIME" := by simpa [natural_type, hp] using h.symm
      subst hR
      have hne : ("DATETIME" : String) ≠ "TEXT" := by decide
      simp [sqlite_name, OPER.type, hne, common_type, hD]
    · have hR : R = "TEXT" := by simpa [natural_type, hp] using h.symm
      subst hR
      simp [sqlite_name, OPER.type]
  | num x =>
    have hR : R = "FLOAT" := by simpa [natural_type] using h.symm
    subst hR
    simp [sqlite_name, OPER.type]
  | bool b =>
    have hR : R = "BOOLEAN" := by simpa [natural_type] using h.symm
    subst hR
    simp [sqlite_name, OPER.type]
  | nil =>
    have hR : R = "NULL" := by simpa [natural_type] using h.symm
    subst hR
    simp [sqlite_name, OPER.type]
  | err e => simp [natural_type] at h
  | missing => simp [natural_type] at h
  | int w => simp [natural_type] at h
  | bigdata b => simp [natural_type] at h

/-- A fold whose every step keeps `a` ends in `a`. -/
theorem foldl_keeps {α : Type} (f : α → Nat → α) (a : α) :
    ∀ l : List Nat, (∀ i ∈ l, f a i = a) → l.foldl f a = a := by
  intro l
  induction l with
  | nil => intro _; rfl
  | cons i is ih =>
    intro h
    simp only [List.foldl_cons]
    rw [h i (List.mem_cons_self i is)]
    exact ih (fun k hk => h k (List.mem_cons_of_mem i hk))

/-- Inside its rows and columns a grid has a cell. -/
theorem cell_of_wellFormed (val : Multi) (i j : Nat) (hwf : val.wellFormed)
    (hi : i < val.rows) (hj : j < val.columns) : ∃ c, val.cell i j = some c := by
  have hlt : i * val.columns + j < val.array.length := by
    rw [hwf]
    calc i * val.columns + j < i * val.columns + val.columns := by omega
      _ = (i + 1) * val.columns := by ring
      _ ≤ val.rows * val.columns := Nat.mul_le_mul_right _ hi
  exact ⟨val.array.get ⟨_, hlt⟩, by simp [Multi.cell, Multi.item, List.get?_eq_get hlt]⟩

/-- The loop body on a named row whose name resolves: the bind of `val(i, 1)`
at the resolved position. -/
theorem sqlite_bind_row_named (H : Host) (s : stmt) (val : Multi) (i p : Nat) (name v : OPER)
    (hcols : val.columns = 2) (hname : val.cell i 0 = some name) (hv : val.cell i 1 = some v)
    (htrue : H.truthy name = true)
    (hp : s.bind_parameter_index (parameter_name (H.to_string name)) = p) (hpos : 0 < p) :
    sqlite_bind_row H s val i =
      match bind_value p v with
      | .ok e => .ok [e]
      | .error e => .error e := by
  have hne : p ≠ 0 := by omega
  unfold sqlite_bind_row
  simp only [hcols, if_true, hname, cell_or_raise, htrue, Bool.not_true, hp, bind_selected,
    hne, ne_eq, not_false_eq_true, hv, if_false]
  cases bind_value p v <;> simp

/-! ## Value codec -/

/-- C1 (the code departs from the claim). A column reported as datetime with
the Integer sub-kind and stored value 0 makes `column` return the `#VALUE!`
error cell: it is neither the empty cell `column` gives for NULL, nor a `Nil`
cell, nor a Number. -/
theorem column_zero_epoch_is_error (H : Host) (s : stmt) (i : Nat)
    (htype : s.type i = SQLITE_DATETIME)
    (hkind : (s.column_datetime i).type = SQLITE_INTEGER)
    (hzero : (s.column_datetime i).value_i = 0) :
    column H s i = ErrValue ∧ column H s i ≠ OPER.str "" ∧ column H s i ≠ OPER.nil
      ∧ (column H s i).type = xltype.xltypeErr := by
  have h : column H s i = ErrValue := by
    simp [column, htype, hkind, hzero]
  rw [h]
  simp [ErrValue, OPER.type]

/-- C1 at a concrete statement: one column, datetime of Integer sub-kind,
stored value 0. -/
theorem column_zero_epoch_is_error_witness :
    column reference_host
        { stmt_of_bound .null with
          type := fun _ => SQLITE_DATETIME
          column_datetime := fun _ => ⟨SQLITE_INTEGER, 0, 0⟩ } 0 = ErrValue
      ∧ column reference_host
        { stmt_of_bound .null with
          type := fun _ => SQLITE_DATETIME
          column_datetime := fun _ => ⟨SQLITE_INTEGER, 0, 0⟩ } 0 ≠ OPER.str ""
      ∧ column reference_host
        { stmt_of_bound .null with
          type := fun _ => SQLITE_DATETIME
          column_datetime := fun _ => ⟨SQLITE_INTEGER, 0, 0⟩ } 0 ≠ OPER.nil
      ∧ (column reference_host
        { stmt_of_bound .null with
          type := fun _ => SQLITE_DATETIME
          column_datetime := fun _ => ⟨SQLITE_INTEGER, 0, 0⟩ } 0).type = xltype.xltypeErr :=
  column_zero_epoch_is_error reference_host _ 0 rfl rfl rfl

/-- C2 (the code departs from the claim). In binary64 the serial of second 1
is `25569 + 1/86400` rounded to 38 fractional bits; subtracting 25569 and
multiplying by 86400 gives a value just below 1, which the cast truncates to
0. Seconds 4 and 5 come back as 3 and 4. -/
theorem to_time_to_julian_loses_a_second :
    to_julian 1 = 7028353205832593 / 2 ^ 38
      ∧ to_time (to_julian 1) = 0
      ∧ to_time (to_julian 4) = 3
      ∧ to_time (to_julian 5) = 4
      ∧ to_time (to_julian 1600000002) = 1600000001 := by
  decide!

/-- C3 (amended). A value bound by `sqlite_bind` as the named pair
`(name, V)`, the name resolving to a position `p > 0`, and read back by
`column` from a statement that returns exactly what was bound: a Number, a
Text and a Boolean come back with the same kind and content; a Nil cell is
bound as NULL and comes back as the zero-length text cell `OPER("")`. -/
theorem value_round_trip (H : Host) (s : stmt) (name : OPER) (p i : Nat)
    (hname : H.truthy name = true)
    (hp : s.bind_parameter_index (parameter_name (H.to_string name)) = p) (hpos : 0 < p) :
    (∀ x, sqlite_bind H s ⟨1, 2, [name, .num x]⟩ = .ok [.bind p (.double x)]
        ∧ column H (stmt_of_bound (.double x)) i = .num x)
    ∧ (∀ t, sqlite_bind H s ⟨1, 2, [name, .str t]⟩ = .ok [.bind p (.text t)]
        ∧ column H (stmt_of_bound (.text t)) i = .str t)
    ∧ (∀ b, sqlite_bind H s ⟨1, 2, [name, .bool b]⟩ = .ok [.bind p (.boolean b)]
        ∧ column H (stmt_of_bound (.boolean b)) i = .bool b)
    ∧ (sqlite_bind H s ⟨1, 2, [name, .nil]⟩ = .ok [.bind p .null]
        ∧ column H (stmt_of_bound .null) i = .str "") := by
  have hbind : ∀ v : OPER, sqlite_bind H s ⟨1, 2, [name, v]⟩ =
      match sqlite_bind_row H s ⟨1, 2, [name, v]⟩ 0 with
      | .error e => .error e
      | .ok done => .ok (done ++ []) := by
    intro v
    rfl
  have hrow : ∀ v : OPER, sqlite_bind_row H s ⟨1, 2, [name, v]⟩ 0 =
      match bind_value p v with
      | .ok e => .ok [e]
      | .error e => .error e :=
    fun v => sqlite_bind_row_named H s ⟨1, 2, [name, v]⟩ 0 p name v rfl rfl rfl hname hp hpos
  refine ⟨fun x => ⟨?_, ?_⟩, fun t => ⟨?_, ?_⟩, fun b => ⟨?_, ?_⟩, ?_, ?_⟩
  · rw [hbind, hrow]; rfl
  · rfl
  · rw [hbind, hrow]; rfl
  · show OPER.str ((stmt_of_bound (.text t)).text_view i) = .str t
    rw [text_view_of_bound]
  · rw [hbind, hrow]; rfl
  · rfl
  · rw [hbind, hrow]; rfl
  · rfl

/-- C3 at a concrete input, the pair `limit = 10` of the spec's scenario B:
bound as the Float 10 at position 1 and read back as the Number 10. -/
theorem value_round_trip_witness :
    sqlite_bind reference_host limit_stmt ⟨1, 2, [.str "limit", .num 10]⟩
        = .ok [.bind 1 (.double 10)]
      ∧ column reference_host (stmt_of_bound (.double 10)) 0 = .num 10 :=
  (value_round_trip reference_host limit_stmt (.str "limit") 1 0
    (by decide!) (by decide!) (by decide)).1 10

/-- C3 as stated fails for Null: the Nil cell is bound as NULL and read back
as `OPER("")`, a cell of kind Text, not of kind Nil; bound again, that cell is
sent to the engine as a Text and no longer as NULL. -/
theorem null_round_trip_changes_kind :
    sqlite_bind reference_host limit_stmt ⟨1, 2, [.str "limit", .nil]⟩ = .ok [.bind 1 .null]
      ∧ column reference_host (stmt_of_bound .null) 0 = OPER.str ""
      ∧ column reference_host (stmt_of_bound .null) 0 ≠ OPER.nil
      ∧ (column reference_host (stmt_of_bound .null) 0).type = xltype.xltypeStr
      ∧ OPER.nil.type = xltype.xltypeNil
      ∧ bind_value 1 (column reference_host (stmt_of_bound .null) 0) = .ok (.bind 1 (.text "")) := by
  decide!

/-! ## Type inference -/

/-- C4. `common_type` is its precedence table: the left name when both names
denote the same type; the right name when the left is INTEGER and the right is
FLOAT, TEXT or DATETIME, when the left is FLOAT and the right is TEXT or
DATETIME, or when the left is TEXT and the right is DATETIME; the left name for
every other pairing. In particular `common_type X X = X`. -/
theorem common_type_precedence_table (H : Host) (a b : String) :
    common_type H a a = a ∧
    common_type H a b =
      if H.type a = H.type b then a
      else if (H.type a = SQLITE_INTEGER ∧
                (H.type b = SQLITE_FLOAT ∨ H.type b = SQLITE_TEXT ∨ H.type b = SQLITE_DATETIME))
            ∨ (H.type a = SQLITE_FLOAT ∧ (H.type b = SQLITE_TEXT ∨ H.type b = SQLITE_DATETIME))
            ∨ (H.type a = SQLITE_TEXT ∧ H.type b = SQLITE_DATETIME) then b
      else a := by
  constructor
  · simp [common_type]
  · unfold common_type
    by_cases hab : H.type a = H.type b
    · simp [hab]
    · simp only [hab, if_false]
      cases ha : H.type a <;> cases hb : H.type b <;> simp_all

/-- C5 (the code departs from the claim). On the column `["abc", "2020-01-01"]`
the three-argument `guess_type` answers TEXT: only row 0 goes through the date
test, later rows are looked up in `sqlite_name` by their tag alone. The fold
over natural types that the claim describes answers DATETIME. -/
theorem guess_type_ignores_later_dates :
    reference_host.parse_tm "abc" = none
      ∧ (reference_host.parse_tm "2020-01-01").isSome = true
      ∧ (⟨2, 1, [.str "abc", .str "2020-01-01"]⟩ : Multi).guess_type reference_host 0 2
          = some "TEXT"
      ∧ fold_natural_types reference_host ⟨2, 1, [.str "abc", .str "2020-01-01"]⟩ 0 2
          = some "DATETIME" := by
  decide!

/-- C6. Type fold idempotence: when every sampled cell of column `col` of `o2`
(row 0 and rows `1 .. rows-1`) has natural type `R`, where `R` is what
`guess_type` inferred for some column, `guess_type` infers `R` for `o2` too.
The name `DATETIME` is taken to denote the datetime type code. -/
theorem guess_type_idempotent (H : Host) (hD : H.type "DATETIME" = SQLITE_DATETIME)
    (o o2 : Multi) (col rows : Nat) (R : String)
    (hR : o.guess_type H col rows = some R)
    (hnat : ∀ i, i < max rows 1 → ∃ c, o2.cell i col = some c ∧ natural_type H c = some R) :
    o2.guess_type H col rows = some R := by
  have _ := hR
  obtain ⟨c0, hc0, hn0⟩ := hnat 0 (by omega)
  unfold Multi.guess_type
  rw [hc0]
  simp only []
  rw [guess_type_of_natural_type H c0 R hn0]
  apply foldl_keeps
  intro i hi
  have hlt : i < max rows 1 := by
    have := List.mem_range'_1.mp hi
    omega
  obtain ⟨c, hc, hn⟩ := hnat i hlt
  exact guess_type_step_keeps H hD o2 col i c R hc hn

/-- C6 at a concrete input: `R = DATETIME` is inferred for one column of two
ISO dates, and a second column of ISO dates infers DATETIME again. -/
theorem guess_type_idempotent_witness :
    (⟨2, 1, [.str "2021-02-03", .str "1999-12-31"]⟩ : Multi).guess_type reference_host 0 2
      = some "DATETIME" :=
  guess_type_idempotent reference_host rfl
    ⟨2, 1, [.str "2020-01-01", .str "2020-01-02"]⟩
    ⟨2, 1, [.str "2021-02-03", .str "1999-12-31"]⟩ 0 2 "DATETIME"
    (by decide!)
    (by
      intro i hi
      have hi2 : i < 2 := by simpa using hi
      interval_cases i
      · exact ⟨.str "2021-02-03", rfl, by decide!⟩
      · exact ⟨.str "1999-12-31", rfl, by decide!⟩)

/-- C7 (the code departs from the claim). For the 2-by-2 range of the numbers
1, 2, 3, 4 and one sampled row, first call: the result is 1 by 4, not 1 by 2,
and every entry is NULL, not FLOAT, because the types are guessed from the
freshly resized result `o`, not from the range. With `rows = 0` (all rows) the
loop reads row 1 of the one-row result, past its cells. -/
theorem xll_sqlite_types_reads_its_own_result (H : Host) :
    xll_sqlite_types H static_o ⟨2, 2, [.num 1, .num 2, .num 3, .num 4]⟩ 1
        = some ⟨1, 4, [.str "NULL", .str "NULL", .str "NULL", .str "NULL"]⟩
      ∧ (⟨2, 2, [.num 1, .num 2, .num 3, .num 4]⟩ : Multi).guess_type H 0 1 = some "FLOAT"
      ∧ (⟨2, 2, [.num 1, .num 2, .num 3, .num 4]⟩ : Multi).guess_type H 1 1 = some "FLOAT"
      ∧ xll_sqlite_types H static_o ⟨2, 2, [.num 1, .num 2, .num 3, .num 4]⟩ 0 = none := by
  refine ⟨rfl, rfl, rfl, rfl⟩

/-! ## Parameter binding -/

/-- C8 (the code departs from the claim). Named binds `bogus = 10`, `limit = 5`
on a statement whose only parameter is `:limit`: after the warning for
`:bogus` the loop body goes on with `pi = 0`, selects `val[0]` (the name cell
itself) and calls `stmt.bind(0, "bogus")`; the row is not skipped. -/
theorem sqlite_bind_unresolved_name_still_binds :
    limit_stmt.bind_parameter_index ":bogus" = 0
      ∧ sqlite_bind reference_host limit_stmt
          ⟨2, 2, [.str "bogus", .num 10, .str "limit", .num 5]⟩
        = .ok [.warning ":bogus: not found", .bind 0 (.text "bogus"), .bind 1 (.double 5)] := by
  decide!

/-- C9 (the code departs from the claim). Positional binds: `pi = i + 1` is
never 0, so the value bound is `val(i, 1)` and not `val[i]`. The 1-by-3 array
`[10, Nil, Nil]` binds NULL at position 1 instead of the Float 10; the 3-by-1
array `[10, 20, Nil]` binds 20 at position 1 and NULL at position 2; and for
`[10, 20, 30]` the read `val(1, 1)` is past the cells. -/
theorem sqlite_bind_positional_binds_other_cell :
    sqlite_bind reference_host limit_stmt ⟨1, 3, [.num 10, .nil, .nil]⟩
        = .ok [.bind 1 .null]
      ∧ sqlite_bind reference_host limit_stmt ⟨3, 1, [.num 10, .num 20, .nil]⟩
        = .ok [.bind 1 (.double 20), .bind 2 .null]
      ∧ sqlite_bind reference_host limit_stmt ⟨1, 3, [.num 10, .num 20, .num 30]⟩
        = .error "index out of range" := by
  decide!

/-- C10 (amended). For a two-column bind array holding `rows * 2` cells and a
row `i`: a blank name cell gives no event at all; a name that is not blank is
looked up with a `':'` in front exactly when it does not start with one, and
when it resolves to a position `p > 0` a Number `val(i, 1)` is bound at `p` as
a Float, a Text as Text, a Boolean as Boolean and a Nil cell as NULL, while an
Error, Missing, Int or BigData cell makes the call raise with nothing bound for
the row. Whenever `sqlite_bind` returns, the events of row `i` are a segment of
what it returns. -/
theorem sqlite_bind_named_row (H : Host) (s : stmt) (val : Multi) (i : Nat)
    (hcols : val.columns = 2) (hwf : val.wellFormed) (hi : i < val.rows) :
    ∃ name v, val.cell i 0 = some name ∧ val.cell i 1 = some v ∧
      (H.truthy name = false → sqlite_bind_row H s val i = .ok []) ∧
      (H.truthy name = true →
        ∀ p, s.bind_parameter_index
              (if (H.to_string name).data.head? = some ':' then H.to_string name
               else ":" ++ H.to_string name) = p → 0 < p →
          (∀ x, v = .num x → sqlite_bind_row H s val i = .ok [.bind p (.double x)]) ∧
          (∀ t, v = .str t → sqlite_bind_row H s val i = .ok [.bind p (.text t)]) ∧
          (∀ b, v = .bool b → sqlite_bind_row H s val i = .ok [.bind p (.boolean b)]) ∧
          (v = .nil → sqlite_bind_row H s val i = .ok [.bind p .null]) ∧
          (v.type = .xltypeErr ∨ v.type = .xltypeMissing ∨ v.type = .xltypeInt
              ∨ v.type = .xltypeBigData →
            sqlite_bind_row H s val i
              = .error "sqlite_bind: value to bind must be number, string, or null")) ∧
      (∀ evs, sqlite_bind H s val = .ok evs →
        ∃ r pre post, sqlite_bind_row H s val i = .ok r ∧ evs = pre ++ r ++ post) := by
  obtain ⟨name, hname⟩ := cell_of_wellFormed val i 0 hwf hi (by omega)
  obtain ⟨v, hv⟩ := cell_of_wellFormed val i 1 hwf hi (by omega)
  refine ⟨name, v, hname, hv, ?_, ?_, ?_⟩
  · intro hblank
    unfold sqlite_bind_row
    simp [hcols, hname, cell_or_raise, hblank]
  · intro htrue p hp hpos
    rw [← parameter_name_eq] at hp
    have hrow := sqlite_bind_row_named H s val i p name v hcols hname hv htrue hp hpos
    refine ⟨?_, ?_, ?_, ?_, ?_⟩
    · intro x hx; rw [hrow, hx]; rfl
    · intro t ht; rw [hrow, ht]; rfl
    · intro b hb; rw [hrow, hb]; rfl
    · intro hnil; rw [hrow, hnil]; rfl
    · intro hkind
      rw [hrow]
      cases v <;> simp [OPER.type] at hkind <;> rfl
  · intro evs hevs
    unfold sqlite_bind at hevs
    simp only [hcols, if_true] at hevs
    exact sqlite_bind_loop_split H s val _ evs hevs i (List.mem_range.mpr hi)

/-- C10 at a concrete input, scenario B of the spec: the pair `limit = 10` on
a statement whose parameter `:limit` is at position 1. -/
theorem sqlite_bind_named_row_witness :
    ∃ name v, (⟨1, 2, [.str "limit", .num 10]⟩ : Multi).cell 0 0 = some name ∧
      (⟨1, 2, [.str "limit", .num 10]⟩ : Multi).cell 0 1 = some v ∧
      (reference_host.truthy name = false →
        sqlite_bind_row reference_host limit_stmt ⟨1, 2, [.str "limit", .num 10]⟩ 0 = .ok []) ∧
      (reference_host.truthy name = true →
        ∀ p, limit_stmt.bind_parameter_index
              (if (reference_host.to_string name).data.head? = some ':'
               then reference_host.to_string name
               else ":" ++ reference_host.to_string name) = p → 0 < p →
          (∀ x, v = .num x →
            sqlite_bind_row reference_host limit_stmt ⟨1, 2, [.str "limit", .num 10]⟩ 0
              = .ok [.bind p (.double x)]) ∧
          (∀ t, v = .str t →
            sqlite_bind_row reference_host limit_stmt ⟨1, 2, [.str "limit", .num 10]⟩ 0
              = .ok [.bind p (.text t)]) ∧
          (∀ b, v = .bool b →
            sqlite_bind_row reference_host limit_stmt ⟨1, 2, [.str "limit", .num 10]⟩ 0
              = .ok [.bind p (.boolean b)]) ∧
          (v = .nil →
            sqlite_bind_row reference_host limit_stmt ⟨1, 2, [.str "limit", .num 10]⟩ 0
              = .ok [.bind p .null]) ∧
          (v.type = .xltypeErr ∨ v.type = .xltypeMissing ∨ v.type = .xltypeInt
              ∨ v.type = .xltypeBigData →
            sqlite_bind_row reference_host limit_stmt ⟨1, 2, [.str "limit", .num 10]⟩ 0
              = .error "sqlite_bind: value to bind must be number, string, or null")) ∧
      (∀ evs, sqlite_bind reference_host limit_stmt ⟨1, 2, [.str "limit", .num 10]⟩ = .ok evs →
        ∃ r pre post,
          sqlite_bind_row reference_host limit_stmt ⟨1, 2, [.str "limit", .num 10]⟩ 0 = .ok r
            ∧ evs = pre ++ r ++ post) :=
  sqlite_bind_named_row reference_host limit_stmt ⟨1, 2, [.str "limit", .num 10]⟩ 0
    rfl rfl (by decide)

/-- C10 as stated fails when the value cell cannot be bound: for the pair
`:limit = #VALUE!` the name resolves to position 1, yet `sqlite_bind` raises
and no bind call is made. -/
theorem sqlite_bind_named_error_value_raises :
    limit_stmt.bind_parameter_index ":limit" = 1
      ∧ sqlite_bind reference_host limit_stmt ⟨1, 2, [.str ":limit", ErrValue]⟩
        = .error "sqlite_bind: value to bind must be number, string, or null" := by
  decide!

/-! ## Result materializer -/

/-- Pushing cells back one by one appends them. -/
theorem foldl_push_back (l acc : List OPER) :
    l.foldl (fun result v => result ++ [v]) acc = acc ++ l := by
  induction l generalizing acc with
  | nil => simp
  | cons v vs ih => simp [ih]

/-- A row has `c` cells. -/
theorem row_cells_length (H : Host) (e : stepped_stmt) (s : stmt) :
    (row_cells H e s).length = e.column_count := by
  simp [row_cells]

/-- The header has `c` cells. -/
theorem header_cells_length (e : stepped_stmt) :
    (header_cells e).length = e.column_count := by
  simp [header_cells]

/-- Pushing rows below a grid appends their cells and counts them. -/
theorem foldl_push_bottom (H : Host) (e : stepped_stmt) (rows : List stmt) (m : Multi) :
    rows.foldl (fun result s => push_bottom result ⟨1, e.column_count, row_cells H e s⟩)
        (.grid m)
      = .grid ⟨m.rows + rows.length, m.columns,
          m.array ++ (rows.map (row_cells H e)).flatten⟩ := by
  induction rows generalizing m with
  | nil => simp
  | cons s ss ih =>
    have hpush : push_bottom (.grid m) ⟨1, e.column_count, row_cells H e s⟩
        = .grid ⟨m.rows + 1, m.columns, m.array ++ row_cells H e s⟩ := rfl
    rw [List.foldl_cons, hpush, ih]
    have h : m.rows + 1 + ss.length = m.rows + (s :: ss).length := by
      rw [List.length_cons]; omega
    simp only [h, List.map_cons, List.flatten_cons, List.append_assoc]

/-- The cell-by-cell collection of `sqlite_exec_mem` appends the rows. -/
theorem foldl_push_back_rows (H : Host) (e : stepped_stmt) (rows : List stmt) (acc : List OPER) :
    rows.foldl (fun result s => (row_cells H e s).foldl (fun result v => result ++ [v]) result)
        acc
      = acc ++ (rows.map (row_cells H e)).flatten := by
  induction rows generalizing acc with
  | nil => simp
  | cons s ss ih =>
    rw [List.foldl_cons, foldl_push_back, ih]
    simp only [List.map_cons, List.flatten_cons, List.append_assoc]

/-- The cells of `k` rows number `k * c`. -/
theorem join_row_cells_length (H : Host) (e : stepped_stmt) (rows : List stmt) :
    ((rows.map (row_cells H e)).flatten).length = rows.length * e.column_count := by
  induction rows with
  | nil => simp
  | cons s ss ih =>
    simp only [List.map_cons, List.flatten_cons, List.length_append, row_cells_length, ih,
      List.length_cons]
    ring

/-- Cell `i` of row `p` among the collected rows is `column` of that row. -/
theorem get?_join_row_cells (H : Host) (e : stepped_stmt) :
    ∀ (rows : List stmt) (p i : Nat) (s : stmt), rows.get? p = some s → i < e.column_count →
      ((rows.map (row_cells H e)).flatten).get? (p * e.column_count + i)
        = some (column H s i) := by
  intro rows
  induction rows with
  | nil => intro p i s h; simp at h
  | cons r rs ih =>
    intro p i s h hi
    cases p with
    | zero =>
      simp only [List.get?_cons_zero, Option.some.injEq] at h
      subst h
      simp only [List.map_cons, List.flatten_cons, Nat.zero_mul, Nat.zero_add]
      rw [List.get?_eq_getElem?, List.getElem?_append_left (by simpa [row_cells] using hi)]
      simp [row_cells, hi]
    | succ q =>
      simp only [List.get?_cons_succ] at h
      simp only [List.map_cons, List.flatten_cons]
      rw [List.get?_eq_getElem?, List.getElem?_append_right (by
        rw [row_cells_length]; nlinarith)]
      rw [row_cells_length]
      have : (q + 1) * e.column_count + i - e.column_count = q * e.column_count + i := by
        rw [Nat.add_mul, Nat.one_mul]; omega
      rw [this, ← List.get?_eq_getElem?]
      exact ih q i s h hi

/-- The grid `sqlite_exec` builds: header cells, then the cells of each row. -/
theorem sqlite_exec_grid (H : Host) (e : stepped_stmt) (no_headers : Bool)
    (first : stmt) (rest : List stmt) (hrows : e.rows = first :: rest)
    (hlast : e.last = .SQLITE_DONE) :
    sqlite_exec H e no_headers = .ok (.grid
      ⟨(first :: rest).length + (if no_headers then 0 else 1), e.column_count,
        (if no_headers then [] else header_cells e)
          ++ ((first :: rest).map (row_cells H e)).flatten⟩) := by
  unfold sqlite_exec
  rw [hrows, hlast]
  cases no_headers with
  | true =>
    have hpush : push_bottom .nil ⟨1, e.column_count, row_cells H e first⟩
        = .grid ⟨1, e.column_count, row_cells H e first⟩ := rfl
    simp only [Bool.not_true, Bool.false_eq_true, if_false, List.foldl_cons, hpush,
      foldl_push_bottom, if_true, List.nil_append, List.map_cons, List.flatten_cons,
      List.length_cons]
    congr 3
    omega
  | false =>
    have hpush : push_bottom .nil ⟨1, e.column_count, header_cells e⟩
        = .grid ⟨1, e.column_count, header_cells e⟩ := rfl
    simp only [Bool.not_false, if_true, hpush, foldl_push_bottom, Bool.false_eq_true, if_false]
    congr 3
    omega

/-- The grid `sqlite_exec_mem` builds from the same cells. -/
theorem sqlite_exec_mem_grid (H : Host) (e : stepped_stmt) (no_headers : Bool)
    (first : stmt) (rest : List stmt) (hrows : e.rows = first :: rest)
    (hlast : e.last = .SQLITE_DONE) :
    sqlite_exec_mem H e no_headers = .ok (.grid
      ⟨((if no_headers then [] else header_cells e)
          ++ ((first :: rest).map (row_cells H e)).flatten).length / e.column_count,
        e.column_count,
        (if no_headers then [] else header_cells e)
          ++ ((first :: rest).map (row_cells H e)).flatten⟩) := by
  unfold sqlite_exec_mem
  rw [hrows, hlast]
  cases no_headers with
  | true =>
    simp only [Bool.not_true, Bool.false_eq_true, if_false, if_true]
    rw [foldl_push_back_rows]
  | false =>
    simp only [Bool.not_false, if_true, Bool.false_eq_true, if_false]
    rw [foldl_push_back, List.nil_append, foldl_push_back_rows]

/-- The collected cells number rows times `c`. -/
theorem exec_cells_length (H : Host) (e : stepped_stmt) (no_headers : Bool) (rows : List stmt) :
    ((if no_headers then [] else header_cells e)
        ++ (rows.map (row_cells H e)).flatten).length
      = (rows.length + (if no_headers then 0 else 1)) * e.column_count := by
  cases no_headers with
  | true =>
    simp only [if_true, List.nil_append, join_row_cells_length, Nat.add_zero]
  | false =>
    simp only [Bool.false_eq_true, if_false, List.length_append, header_cells_length,
      join_row_cells_length]
    ring

/-- C13. Rectangularity: for a statement whose first step yields a row, with
`c` columns and `k` rows before `SQLITE_DONE`, `sqlite_exec` returns a grid of
`c` columns and `k` rows, plus one header row unless `no_headers` is set,
holding exactly rows times `c` cells; `sqlite_exec_mem` collects a number of
cells that is that multiple of `c` and, `c` being positive as it is for a
statement that yields a row, reshapes them to the same grid. -/
theorem exec_grid_is_rectangular (H : Host) (e : stepped_stmt) (no_headers : Bool)
    (first : stmt) (rest : List stmt) (hrows : e.rows = first :: rest)
    (hlast : e.last = .SQLITE_DONE) :
    ∃ g : Multi, sqlite_exec H e no_headers = .ok (.grid g)
      ∧ g.columns = e.column_count
      ∧ g.rows = e.rows.length + (if no_headers then 0 else 1)
      ∧ g.wellFormed
      ∧ (∀ i j, i < g.rows → j < e.column_count → ∃ v, g.cell i j = some v)
      ∧ (∃ cells : List OPER,
          sqlite_exec_mem H e no_headers
            = .ok (.grid ⟨cells.length / e.column_count, e.column_count, cells⟩)
          ∧ cells.length = (e.rows.length + (if no_headers then 0 else 1)) * e.column_count
          ∧ e.column_count ∣ cells.length)
      ∧ (0 < e.column_count → sqlite_exec_mem H e no_headers = .ok (.grid g)) := by
  have hlen := exec_cells_length H e no_headers (first :: rest)
  refine ⟨_, sqlite_exec_grid H e no_headers first rest hrows hlast, rfl, by rw [hrows], ?_, ?_,
    ?_, ?_⟩
  · exact hlen
  · intro i j hi hj
    exact cell_of_wellFormed _ i j hlen hi hj
  · refine ⟨_, sqlite_exec_mem_grid H e no_headers first rest hrows hlast, ?_, ?_⟩
    · rw [hrows]; exact hlen
    · rw [hlen]; exact Dvd.intro_left _ rfl
  · intro hc
    rw [sqlite_exec_mem_grid H e no_headers first rest hrows hlast, hlen,
      Nat.mul_div_cancel _ hc]

/-- C14 (amended). Per-cell decoding: `column(stmt, i)` is the same for two
statements that agree on the accessors of column `i`; for Null it is
`OPER("")`, a zero-length cell of kind Text (one the table builder binds as
NULL again), not a `Nil` cell; it is the Number `n` for Integer `n`, the Number
`x` for Float `x`, the Text of the reported bytes for Text and the `#VALUE!`
error cell for Blob; and in the grid of `sqlite_exec` the cell of row `p`,
column `i` is `column` of that row at `i`, whatever the other columns hold. -/
theorem column_decodes_per_cell (H : Host) (s : stmt) (i : Nat) :
    (∀ s2 : stmt, s2.type i = s.type i → s2.column_int i = s.column_int i →
        s2.column_double i = s.column_double i → s2.column_text i = s.column_text i →
        s2.column_bytes i = s.column_bytes i → s2.columns_boolean i = s.columns_boolean i →
        s2.column_datetime i = s.column_datetime i → column H s2 i = column H s i)
    ∧ (s.type i = SQLITE_NULL →
        column H s i = OPER.str ""
          ∧ (column H s i).type = xltype.xltypeStr
          ∧ ∀ (L : Library) (t : OPER) (j : Nat),
              insert_cell L t j (column H s i) = [.bind (j + 1) .null])
    ∧ (s.type i = SQLITE_INTEGER → column H s i = OPER.num (s.column_int i))
    ∧ (s.type i = SQLITE_FLOAT → column H s i = OPER.num (s.column_double i))
    ∧ (s.type i = SQLITE_TEXT →
        column H s i = OPER.str (String.mk ((s.column_text i).data.take (s.column_bytes i)))
          ∧ (s.column_bytes i = (s.column_text i).data.length →
              column H s i = OPER.str (s.column_text i)))
    ∧ (s.type i = SQLITE_BLOB → column H s i = ErrValue)
    ∧ (∀ (e : stepped_stmt) (no_headers : Bool) (g : Multi) (p : Nat),
        e.rows.get? p = some s → i < e.column_count →
        sqlite_exec H e no_headers = .ok (.grid g) →
        g.cell (p + (if no_headers then 0 else 1)) i = some (column H s i)) := by
  refine ⟨?_, ?_, ?_, ?_, ?_, ?_, ?_⟩
  · intro s2 h1 h2 h3 h4 h5 h6 h7
    simp only [column, stmt.text_view, h1, h2, h3, h4, h5, h6, h7]
  · intro h
    have hc : column H s i = OPER.str "" := by simp [column, h]
    refine ⟨hc, by rw [hc]; rfl, fun L t j => ?_⟩
    rw [hc]
    rfl
  · intro h
    simp [column, h, OPER.ofInt]
  · intro h
    simp [column, h]
  · intro h
    have hc : column H s i
        = OPER.str (String.mk ((s.column_text i).data.take (s.column_bytes i))) := by
      simp [column, h, stmt.text_view]
    refine ⟨hc, fun hb => ?_⟩
    rw [hc, hb, List.take_length]
  · intro h
    simp [column, h]
  · intro e no_headers g p hp hi hexec
    cases hrows : e.rows with
    | nil => rw [hrows] at hp; simp at hp
    | cons first rest =>
      cases hlast : e.last with
      | error code => simp [sqlite_exec, hrows, hlast] at hexec
      | SQLITE_DONE =>
        rw [sqlite_exec_grid H e no_headers first rest hrows hlast] at hexec
        simp only [Except.ok.injEq, Result.grid.injEq] at hexec
        subst hexec
        rw [hrows] at hp
        have hget := get?_join_row_cells H e (first :: rest) p i s hp hi
        cases no_headers with
        | true =>
          simpa [Multi.cell, Multi.item] using hget
        | false =>
          simp only [Multi.cell, Multi.item, Bool.false_eq_true, if_false]
          rw [List.get?_eq_getElem?, List.getElem?_append_right (by
            rw [header_cells_length]; nlinarith)]
          rw [header_cells_length]
          have hidx : (p + 1) * e.column_count + i - e.column_count
              = p * e.column_count + i := by
            rw [Nat.add_mul, Nat.one_mul]; omega
          rw [hidx, ← List.get?_eq_getElem?]
          exact hget

/-- C14 as stated fails for Null: the cell `column` returns is `OPER("")`, of
kind Text, not the Empty (`Nil`) cell; type inference tells the two apart, a
`Nil` cell being NULL and this cell TEXT. -/
theorem column_null_is_text_cell :
    (stmt_of_bound .null).type 0 = SQLITE_NULL
      ∧ column reference_host (stmt_of_bound .null) 0 = OPER.str ""
      ∧ (column reference_host (stmt_of_bound .null) 0).type = xltype.xltypeStr
      ∧ OPER.nil.type = xltype.xltypeNil
      ∧ column reference_host (stmt_of_bound .null) 0 ≠ OPER.nil
      ∧ natural_type reference_host (column reference_host (stmt_of_bound .null) 0)
          = some "TEXT"
      ∧ natural_type reference_host OPER.nil = some "NULL" := by
  decide!

/-- C17. Scenario C: when the first step returns `SQLITE_DONE`, `sqlite_exec`
and `sqlite_exec_mem` return the handle of the statement, whatever `no_headers`
is and whatever the columns are (no grid is built); when it returns an error
code, both raise the engine's error and return no value. -/
theorem exec_without_rows (H : Host) (e : stepped_stmt) (no_headers : Bool)
    (hrows : e.rows = []) :
    (e.last = .SQLITE_DONE →
        sqlite_exec H e no_headers = .ok (.handle e.address)
          ∧ sqlite_exec_mem H e no_headers = .ok (.handle e.address))
    ∧ (∀ code, e.last = .error code →
        sqlite_exec H e no_headers = .error (engine_error code)
          ∧ sqlite_exec_mem H e no_headers = .error (engine_error code))
    ∧ (∀ (H2 : Host) (e2 : stepped_stmt) (nh2 : Bool), e2.rows = [] → e2.last = e.last →
        e2.address = e.address →
        sqlite_exec H2 e2 nh2 = sqlite_exec H e no_headers
          ∧ sqlite_exec_mem H2 e2 nh2 = sqlite_exec_mem H e no_headers) := by
  refine ⟨?_, ?_, ?_⟩
  · intro h
    simp [sqlite_exec, sqlite_exec_mem, hrows, h]
  · intro code h
    simp [sqlite_exec, sqlite_exec_mem, hrows, h]
  · intro H2 e2 nh2 h2 hl ha
    simp [sqlite_exec, sqlite_exec_mem, hrows, h2, hl, ha]

/-- C17 at a concrete statement: an `UPDATE` run through `sqlite_exec`, first
step `SQLITE_DONE`, headers requested or not. -/
theorem exec_without_rows_witness :
    (sqlite_exec reference_host ⟨7, 0, fun _ => "", [], .SQLITE_DONE⟩ false
          = .ok (.handle 7)
      ∧ sqlite_exec_mem reference_host ⟨7, 0, fun _ => "", [], .SQLITE_DONE⟩ false
          = .ok (.handle 7))
    ∧ (sqlite_exec reference_host ⟨7, 0, fun _ => "", [], .SQLITE_DONE⟩ true
          = .ok (.handle 7)
      ∧ sqlite_exec_mem reference_host ⟨7, 0, fun _ => "", [], .SQLITE_DONE⟩ true
          = .ok (.handle 7)) :=
  ⟨(exec_without_rows reference_host ⟨7, 0, fun _ => "", [], .SQLITE_DONE⟩ false rfl).1 rfl,
   (exec_without_rows reference_host ⟨7, 0, fun _ => "", [], .SQLITE_DONE⟩ true rfl).1 rfl⟩

/-- C13 at a concrete statement: two columns, an Integer row and a Text row,
headers requested: a 3-by-2 grid from both functions. -/
theorem exec_grid_is_rectangular_witness :
    ∃ g : Multi,
      sqlite_exec reference_host
          ⟨7, 2, fun i => if i = 0 then "a" else "b",
            [stmt_of_bound (.integer 5), stmt_of_bound (.text "x")], .SQLITE_DONE⟩ false
        = .ok (.grid g)
      ∧ g.columns = 2 ∧ g.rows = 2 + 1 ∧ g.wellFormed
      ∧ sqlite_exec_mem reference_host
          ⟨7, 2, fun i => if i = 0 then "a" else "b",
            [stmt_of_bound (.integer 5), stmt_of_bound (.text "x")], .SQLITE_DONE⟩ false
        = .ok (.grid g) := by
  obtain ⟨g, h1, h2, h3, h4, _, _, h7⟩ :=
    exec_grid_is_rectangular reference_host
      ⟨7, 2, fun i => if i = 0 then "a" else "b",
        [stmt_of_bound (.integer 5), stmt_of_bound (.text "x")], .SQLITE_DONE⟩ false
      (stmt_of_bound (.integer 5)) [stmt_of_bound (.text "x")] rfl rfl
  exact ⟨g, h1, h2, h3, h4, h7 (by decide)⟩

/-! ## Type inference: first cell and maximum -/

/-- A left operand that denotes none of INTEGER, FLOAT, TEXT is returned. -/
theorem common_type_left_dominates (H : Host) (a b : String)
    (h1 : H.type a ≠ SQLITE_INTEGER) (h2 : H.type a ≠ SQLITE_FLOAT)
    (h3 : H.type a ≠ SQLITE_TEXT) : common_type H a b = a := by
  unfold common_type
  by_cases hab : H.type a = H.type b
  · simp [hab]
  · cases ha : H.type a <;> simp_all

/-- A loop pass keeps a running type that denotes none of INTEGER, FLOAT, TEXT
when the cell has a type name. -/
theorem guess_type_step_dominated (H : Host) (o : Multi) (col i : Nat) (R : String) (c : OPER)
    (h1 : H.type R ≠ SQLITE_INTEGER) (h2 : H.type R ≠ SQLITE_FLOAT)
    (h3 : H.type R ≠ SQLITE_TEXT)
    (hc : o.cell i col = some c) (hn : (sqlite_name c.type).isSome = true) :
    guess_type_step H o col (some R) i = some R := by
  unfold guess_type_step
  rw [hc]
  cases hname : sqlite_name c.type with
  | none => simp [hname] at hn
  | some typei =>
    by_cases hR : R = typei
    · simp [hname, hR]
    · simp [hname, hR, common_type_left_dominates H R typei h1 h2 h3]

/-- C19 (amended). A column whose row 0 is a `Nil` cell infers NULL and a
column whose row 0 is a Boolean infers BOOLEAN, for every sample count,
provided each later sampled cell is in the grid and has an entry in
`sqlite_name` (Number, Text, Boolean, Nil, Int or BigData); and `common_type`
returns its left operand whenever the left operand denotes NULL, BOOLEAN, BLOB
or DATETIME. The names NULL and BOOLEAN are taken to denote their codes. -/
theorem guess_type_first_cell_dominates (H : Host)
    (hN : H.type "NULL" = SQLITE_NULL) (hB : H.type "BOOLEAN" = SQLITE_BOOLEAN)
    (o : Multi) (col rows : Nat)
    (hlater : ∀ i, 1 ≤ i → i < rows →
      ∃ c, o.cell i col = some c ∧ (sqlite_name c.type).isSome = true) :
    (o.cell 0 col = some .nil → o.guess_type H col rows = some "NULL")
    ∧ (∀ b, o.cell 0 col = some (.bool b) → o.guess_type H col rows = some "BOOLEAN")
    ∧ (∀ a b : String,
        H.type a = SQLITE_NULL ∨ H.type a = SQLITE_BOOLEAN ∨ H.type a = SQLITE_BLOB
          ∨ H.type a = SQLITE_DATETIME →
        common_type H a b = a) := by
  have hfold : ∀ R : String, H.type R ≠ SQLITE_INTEGER → H.type R ≠ SQLITE_FLOAT →
      H.type R ≠ SQLITE_TEXT →
      (List.range' 1 (rows - 1)).foldl (guess_type_step H o col) (some R) = some R := by
    intro R h1 h2 h3
    apply foldl_keeps
    intro i hi
    have hi2 := List.mem_range'_1.mp hi
    obtain ⟨c, hc, hn⟩ := hlater i hi2.1 (by omega)
    exact guess_type_step_dominated H o col i R c h1 h2 h3 hc hn
  refine ⟨?_, ?_, ?_⟩
  · intro h0
    unfold Multi.guess_type
    rw [h0]
    exact hfold "NULL" (by simp [hN]) (by simp [hN]) (by simp [hN])
  · intro b h0
    unfold Multi.guess_type
    rw [h0]
    exact hfold "BOOLEAN" (by simp [hB]) (by simp [hB]) (by simp [hB])
  · intro a b ha
    apply common_type_left_dominates <;> rcases ha with h | h | h | h <;> simp [h]

/-- C19 at a concrete column: `[Nil, 1, "x", TRUE]` infers NULL. -/
theorem guess_type_first_cell_dominates_witness :
    (⟨4, 1, [.nil, .num 1, .str "x", .bool true]⟩ : Multi).guess_type reference_host 0 4
      = some "NULL" :=
  (guess_type_first_cell_dominates reference_host rfl rfl
    ⟨4, 1, [.nil, .num 1, .str "x", .bool true]⟩ 0 4
    (by
      intro i h1 h4
      interval_cases i
      · exact ⟨.num 1, rfl, rfl⟩
      · exact ⟨.str "x", rfl, rfl⟩
      · exact ⟨.bool true, rfl, rfl⟩)).1 rfl

/-- C19 as stated fails when a later cell has no type name: for the column
`[Nil, #VALUE!]` the lookup `sqlite_name[xltypeErr]` is the null pointer and
`strcmp` is handed it; no type is inferred. -/
theorem guess_type_error_cell_breaks_dominance :
    sqlite_name ErrValue.type = none
      ∧ (⟨2, 1, [.nil, ErrValue]⟩ : Multi).guess_type reference_host 0 2 = none
      ∧ (⟨2, 1, [.bool true, ErrValue]⟩ : Multi).guess_type reference_host 0 2 = none := by
  decide!

/-- Among the four ranked codes the rank determines the code. -/
theorem type_rank_injective (s t : SqliteType) (hs : is_ranked s) (ht : is_ranked t)
    (h : type_rank s = type_rank t) : s = t := by
  rcases hs with hs | hs | hs | hs <;> rcases ht with ht | ht | ht | ht <;>
    subst hs <;> subst ht <;> first | rfl | (simp [type_rank] at h)

/-- On ranked types `common_type` picks the argument of the larger rank. -/
theorem common_type_rank (H : Host) (a b : String)
    (ha : is_ranked (H.type a)) (hb : is_ranked (H.type b)) :
    (common_type H a b = a ∨ common_type H a b = b)
      ∧ is_ranked (H.type (common_type H a b))
      ∧ type_rank (H.type (common_type H a b))
          = max (type_rank (H.type a)) (type_rank (H.type b)) := by
  have hsel : (common_type H a b = a ∧ type_rank (H.type b) ≤ type_rank (H.type a))
      ∨ (common_type H a b = b ∧ type_rank (H.type a) ≤ type_rank (H.type b)) := by
    unfold common_type
    rcases ha with ha | ha | ha | ha <;> rcases hb with hb | hb | hb | hb <;>
      simp [ha, hb, type_rank]
  rcases hsel with ⟨h, hle⟩ | ⟨h, hle⟩
  · rw [h]
    exact ⟨Or.inl rfl, ha, (Nat.max_eq_left hle).symm⟩
  · rw [h]
    exact ⟨Or.inr rfl, hb, (Nat.max_eq_right hle).symm⟩

/-- The fold of `common_type` over ranked names has the largest rank of the list. -/
theorem foldl_common_type_rank (H : Host) :
    ∀ (xs : List String) (x : String), (∀ n ∈ x :: xs, is_ranked (H.type n)) →
      is_ranked (H.type (xs.foldl (common_type H) x))
        ∧ type_rank (H.type (xs.foldl (common_type H) x))
            = (x :: xs).foldl (fun m n => max m (type_rank (H.type n))) 0 := by
  intro xs
  induction xs with
  | nil =>
    intro x h
    exact ⟨h x (List.mem_cons_self x []), by simp⟩
  | cons y ys ih =>
    intro x h
    have hx := h x (List.mem_cons_self x _)
    have hy := h y (List.mem_cons_of_mem x (List.mem_cons_self y ys))
    obtain ⟨_, hr, hrank⟩ := common_type_rank H x y hx hy
    have hrest : ∀ n ∈ common_type H x y :: ys, is_ranked (H.type n) := by
      intro n hn
      rcases List.mem_cons.mp hn with hn | hn
      · rw [hn]; exact hr
      · exact h n (List.mem_cons_of_mem x (List.mem_cons_of_mem y hn))
    obtain ⟨h1, h2⟩ := ih (common_type H x y) hrest
    refine ⟨h1, ?_⟩
    simp only [List.foldl_cons] at h2 ⊢
    rw [h2, hrank]
    simp

/-- C20. On names that denote INTEGER, FLOAT, TEXT or DATETIME, `common_type`
is the maximum under INTEGER < FLOAT < TEXT < DATETIME: it returns one of its
two arguments, the one of the larger rank; it is commutative and associative up
to the type denoted; and the fold of `common_type` over a list of such names
denotes the same type for every permutation of the list. -/
theorem common_type_is_maximum (H : Host) (a b c : String)
    (ha : is_ranked (H.type a)) (hb : is_ranked (H.type b)) (hc : is_ranked (H.type c)) :
    H.type (common_type H a b) = H.type (common_type H b a)
    ∧ H.type (common_type H (common_type H a b) c)
        = H.type (common_type H a (common_type H b c))
    ∧ (common_type H a b = a ∨ common_type H a b = b)
    ∧ type_rank (H.type (common_type H a b))
        = max (type_rank (H.type a)) (type_rank (H.type b))
    ∧ (∀ (x y : String) (xs ys : List String), (x :: xs).Perm (y :: ys) →
        (∀ n ∈ x :: xs, is_ranked (H.type n)) →
        H.type (xs.foldl (common_type H) x) = H.type (ys.foldl (common_type H) y)) := by
  obtain ⟨hab1, hab2, hab3⟩ := common_type_rank H a b ha hb
  obtain ⟨_, hba2, hba3⟩ := common_type_rank H b a hb ha
  obtain ⟨_, hbc2, hbc3⟩ := common_type_rank H b c hb hc
  obtain ⟨_, hl2, hl3⟩ := common_type_rank H (common_type H a b) c hab2 hc
  obtain ⟨_, hr2, hr3⟩ := common_type_rank H a (common_type H b c) ha hbc2
  refine ⟨?_, ?_, hab1, hab3, ?_⟩
  · apply type_rank_injective _ _ hab2 hba2
    rw [hab3, hba3, Nat.max_comm]
  · apply type_rank_injective _ _ hl2 hr2
    rw [hl3, hr3, hab3, hbc3, Nat.max_assoc]
  · intro x y xs ys hperm hall
    have hall2 : ∀ n ∈ y :: ys, is_ranked (H.type n) :=
      fun n hn => hall n (hperm.mem_iff.mpr hn)
    obtain ⟨h1, h2⟩ := foldl_common_type_rank H xs x hall
    obtain ⟨h3, h4⟩ := foldl_common_type_rank H ys y hall2
    apply type_rank_injective _ _ h1 h3
    rw [h2, h4]
    apply List.Perm.foldl_eq' hperm
    intro u _ v _ z
    simp only [Nat.max_assoc, Nat.max_comm (type_rank (H.type u))]

/-- C20 at concrete names: TEXT, INTEGER and DATETIME under the reference
host. -/
theorem common_type_is_maximum_witness :
    reference_host.type (common_type reference_host "TEXT" "INTEGER")
      = reference_host.type (common_type reference_host "INTEGER" "TEXT") :=
  (common_type_is_maximum reference_host "TEXT" "INTEGER" "DATETIME"
    (Or.inr (Or.inr (Or.inl rfl))) (Or.inl rfl) (Or.inr (Or.inr (Or.inr rfl)))).1

/-! ## Table builder -/

/-- A loop of runs none of which raises issues the calls of each, in order. -/
theorem foldl_andThen_ok {α : Type} (f : α → Run) :
    ∀ (l : List α) (acc : List Call), (∀ x ∈ l, (f x).raised = none) →
      l.foldl (fun (r : Run) x => r.andThen (f x)) ⟨acc, none⟩
        = ⟨acc ++ (l.map (fun x => (f x).calls)).flatten, none⟩ := by
  intro l
  induction l with
  | nil => intro acc _; simp
  | cons x xs ih =>
    intro acc h
    have hx := h x (List.mem_cons_self x xs)
    have hstep : (Run.mk acc none).andThen (f x) = ⟨acc ++ (f x).calls, none⟩ := by
      simp [Run.andThen, hx]
    rw [List.foldl_cons, hstep, ih _ (fun y hy => h y (List.mem_cons_of_mem x hy))]
    simp

/-- The calls for one cell are bind calls: none of them is a `step`. -/
theorem insert_cell_no_step (L : Library) (t : OPER) (j : Nat) (o : OPER) :
    (insert_cell L t j o).count Call.step = 0 := by
  unfold insert_cell
  cases o with
  | str s =>
    by_cases hs : s.length = 0
    · simp [hs]
    · cases hp : L.parse_tm s <;> simp [hs, hp]
  | nil => simp
  | num x => by_cases h : xlfLeft L.toHost t 4 = OPER.str "DATE" <;> simp [h]
  | bool x => by_cases h : xlfLeft L.toHost t 4 = OPER.str "DATE" <;> simp [h]
  | err x => by_cases h : xlfLeft L.toHost t 4 = OPER.str "DATE" <;> simp [h]
  | missing => by_cases h : xlfLeft L.toHost t 4 = OPER.str "DATE" <;> simp [h]
  | int x => by_cases h : xlfLeft L.toHost t 4 = OPER.str "DATE" <;> simp [h]
  | bigdata x => by_cases h : xlfLeft L.toHost t 4 = OPER.str "DATE" <;> simp [h]

/-- A built schema has one entry per column, each the result of its loop pass. -/
theorem build_schema_entries (L : Library) (data : Multi) (pcolumns ptypes : LPOPER) :
    ∀ (js : List Nat) (schema : List (String × OPER)),
      build_schema L data pcolumns ptypes js = .ok schema →
      schema.length = js.length
        ∧ ∀ k j, js.get? k = some j →
            ∃ entry, schema.get? k = some entry
              ∧ schema_entry L data pcolumns ptypes j = .ok entry := by
  intro js
  induction js with
  | nil =>
    intro schema h
    simp only [build_schema, Except.ok.injEq] at h
    subst h
    exact ⟨rfl, fun k j hk => by simp at hk⟩
  | cons j js ih =>
    intro schema h
    unfold build_schema at h
    cases he : schema_entry L data pcolumns ptypes j with
    | error e => simp [he] at h
    | ok entry =>
      cases hr : build_schema L data pcolumns ptypes js with
      | error e => simp [he, hr] at h
      | ok more =>
        simp only [he, hr, Except.ok.injEq] at h
        subst h
        obtain ⟨hlen, hall⟩ := ih more hr
        refine ⟨by simp [hlen], ?_⟩
        intro k j2 hk
        cases k with
        | zero =>
          simp only [List.get?_cons_zero, Option.some.injEq] at hk
          subst hk
          exact ⟨entry, rfl, he⟩
        | succ k =>
          simp only [List.get?_cons_succ] at hk
          simpa using hall k j2 hk

/-- A schema entry is named after the cell its loop pass read: `column[j]` when
the column argument is true, `data(0, j)` otherwise. -/
theorem schema_entry_name (L : Library) (data : Multi) (pcolumns ptypes : LPOPER) (j : Nat)
    (entry : String × OPER) (h : schema_entry L data pcolumns ptypes j = .ok entry) :
    ∃ c, (if pcolumns.truthy L then pcolumns.grid.item j else data.cell 0 j) = some c
      ∧ entry.1 = "[" ++ L.to_string c ++ "]" := by
  unfold schema_entry at h
  cases hc : (if pcolumns.truthy L then pcolumns.grid.item j else data.cell 0 j) with
  | none => simp [hc] at h
  | some c =>
    refine ⟨c, rfl, ?_⟩
    simp only [hc] at h
    by_cases ht : ptypes.truthy L = true
    · simp only [ht, if_true] at h
      cases hi : ptypes.grid.item j with
      | none => simp [hi] at h
      | some tj =>
        simp only [hi] at h
        by_cases hu : L.truthy (xlfUpper L.toHost tj) = true
        · simp only [hu, if_true, Except.ok.injEq] at h
          rw [← h]
        · simp only [hu] at h
          cases hinf : inferred_type L data j with
          | error e => simp [hinf] at h
          | ok t =>
            simp only [hinf, Bool.false_eq_true, if_false, Except.ok.injEq] at h
            rw [← h]
    · simp only [ht] at h
      cases hinf : inferred_type L data j with
      | error e => simp [hinf] at h
      | ok t =>
        simp only [hinf, Bool.false_eq_true, if_false, Except.ok.injEq] at h
        rw [← h]

/-- Inside a well-formed grid and a schema of its width, a row is bound cell by
cell, stepped and reset, without a raise, and is executed once. -/
theorem insert_row_ok (L : Library) (schema : List (String × OPER)) (data : Multi) (i : Nat)
    (hwf : data.wellFormed) (hlen : schema.length = data.columns) (hi : i < data.rows) :
    (insert_row L schema data i).raised = none
      ∧ executions (insert_row L schema data i).calls = 1 := by
  have hcell : ∀ j ∈ List.range data.columns,
      (insert_cell_run L schema data i j).raised = none
        ∧ (insert_cell_run L schema data i j).calls.count Call.step = 0 := by
    intro j hj
    have hj2 : j < data.columns := List.mem_range.mp hj
    obtain ⟨c, hc⟩ := cell_of_wellFormed data i j hwf hi hj2
    have hs : schema.get? j = some (schema.get ⟨j, by omega⟩) := List.get?_eq_get (by omega)
    unfold insert_cell_run
    rw [hc, hs]
    exact ⟨rfl, insert_cell_no_step L _ j c⟩
  have hfold := foldl_andThen_ok (insert_cell_run L schema data i) (List.range data.columns) []
    (fun j hj => (hcell j hj).1)
  unfold insert_row
  rw [hfold]
  refine ⟨rfl, ?_⟩
  simp only [Run.andThen, executions, List.nil_append, List.count_append]
  have hzero : ∀ l : List Nat, (∀ j ∈ l, (insert_cell_run L schema data i j).calls.count Call.step = 0) →
      ((l.map (fun j => (insert_cell_run L schema data i j).calls)).flatten).count Call.step = 0 := by
    intro l
    induction l with
    | nil => intro _; simp
    | cons j js ih =>
      intro h
      simp only [List.map_cons, List.flatten_cons, List.count_append]
      rw [h j (List.mem_cons_self j js), ih (fun k hk => h k (List.mem_cons_of_mem j hk))]
  rw [hzero _ (fun j hj => (hcell j hj).2)]
  decide

/-- The insert loop over rows inside the grid issues the calls of each row. -/
theorem insert_loop_ok (L : Library) (schema : List (String × OPER)) (data : Multi)
    (start : Nat) (hwf : data.wellFormed) (hlen : schema.length = data.columns) :
    insert_loop L schema data start
        = ⟨((List.range' start (data.rows - start)).map
            (fun i => (insert_row L schema data i).calls)).flatten, none⟩
      ∧ executions ((List.range' start (data.rows - start)).map
            (fun i => (insert_row L schema data i).calls)).flatten = data.rows - start := by
  have hrow : ∀ i ∈ List.range' start (data.rows - start),
      (insert_row L schema data i).raised = none
        ∧ executions (insert_row L schema data i).calls = 1 := by
    intro i hi
    have := List.mem_range'_1.mp hi
    exact insert_row_ok L schema data i hwf hlen (by omega)
  constructor
  · unfold insert_loop
    rw [foldl_andThen_ok (insert_row L schema data) _ [] (fun i hi => (hrow i hi).1)]
    simp
  · have hcount : ∀ l : List Nat, (∀ i ∈ l, executions (insert_row L schema data i).calls = 1) →
        executions ((l.map (fun i => (insert_row L schema data i).calls)).flatten)
          = l.length := by
      intro l
      induction l with
      | nil => intro _; rfl
      | cons i is ih =>
        intro h
        have h1 := h i (List.mem_cons_self i is)
        have h2 := ih (fun k hk => h k (List.mem_cons_of_mem i hk))
        simp only [executions, List.map_cons, List.flatten_cons, List.count_append,
          List.length_cons] at h1 h2 ⊢
        omega
    rw [hcount _ (fun i hi => (hrow i hi).2)]
    simp

/-- Below 1000 columns every placeholder number fits the digit buffer and the
text of the `INSERT` is built. -/
theorem insert_text_some (table : String) (columns : Nat) (h : columns < 1000) :
    ∃ ii, insert_text table columns = some ii := by
  have hfold : ∀ (l : List Nat) (init : String), (∀ i ∈ l, i < 1000) →
      ∃ ii, l.foldl insert_text_step (some init) = some ii := by
    intro l
    induction l with
    | nil => intro init _; exact ⟨init, rfl⟩
    | cons i is ih =>
      intro init hall
      have hi : i < 1000 := hall i (List.mem_cons_self i is)
      have hstep : insert_text_step (some init) i = some (init ++ ", ?" ++ toString i) := by
        simp [insert_text_step, itoa_buf4, hi]
      rw [List.foldl_cons, hstep]
      exact ih _ (fun k hk => hall k (List.mem_cons_of_mem i hk))
  obtain ⟨ii, hii⟩ := hfold (List.range' 2 (columns - 1))
    ("INSERT INTO [" ++ table ++ "] VALUES(?1") (by
      intro i hi
      have := List.mem_range'_1.mp hi
      omega)
  exact ⟨ii ++ ")", by simp [insert_text, hii]⟩

/-- When the arguments pass the checks, the engine accepts the statements, the
schema and the text of the `INSERT` are built, the call returns `db` after
DROP, CREATE, BEGIN, the prepare, the calls of rows `start .. rows - 1` and
COMMIT. -/
theorem create_table_calls (L : Library) (E : Engine) (db : HANDLEX) (table : String)
    (pdata pcolumns ptypes : LPOPER) (schema : List (String × OPER)) (ii : String)
    (hdata : pdata.truthy L = true)
    (hcols : pcolumns.is_missing = true ∨ pdata.grid.columns = pcolumns.grid.size)
    (htypes : ptypes.is_missing = true
      ∨ (pdata.grid.columns = ptypes.grid.size ∧ 1 < pdata.grid.rows))
    (hdb : E.db_valid db = true) (hexec : ∀ sql, E.exec sql = 0)
    (hprep : ∀ sql, E.prepare sql = 0) (hwf : pdata.grid.wellFormed)
    (hschema : build_schema L pdata.grid pcolumns ptypes (List.range pdata.grid.columns)
      = .ok schema)
    (hii : insert_text table pdata.grid.columns = some ii) :
    xll_sqlite_create_table L E db table pdata pcolumns ptypes
      = (db, [Call.exec ("DROP TABLE IF EXISTS [" ++ table ++ "]"),
              Call.exec ("CREATE TABLE [" ++ table ++ "](" ++ schema_text L schema ++ ")"),
              Call.exec "BEGIN TRANSACTION",
              Call.prepare ii]
            ++ (((List.range' (if pcolumns.is_missing then 1 else 0)
                  (pdata.grid.rows - (if pcolumns.is_missing then 1 else 0))).map
                  (fun i => (insert_row L schema pdata.grid i).calls)).flatten
              ++ [Call.exec "COMMIT TRANSACTION"])) := by
  have h2 : (pcolumns.is_missing || pdata.grid.columns == pcolumns.grid.size) = true := by
    rcases hcols with h | h <;> simp [h]
  have h3 : (ptypes.is_missing
      || (pdata.grid.columns == ptypes.grid.size && decide (1 < pdata.grid.rows))) = true := by
    rcases htypes with h | h
    · simp [h]
    · simp [h.1, h.2]
  have hlen : schema.length = pdata.grid.columns := by
    have := (build_schema_entries L pdata.grid pcolumns ptypes _ schema hschema).1
    simpa using this
  have hloop := (insert_loop_ok L schema pdata.grid (if pcolumns.is_missing then 1 else 0)
    hwf hlen).1
  unfold xll_sqlite_create_table xll_sqlite_create_table_try
  simp only [hdata, h2, h3, hdb, hexec, hprep, hschema, hii, hloop, Bool.not_true,
    Bool.false_eq_true, if_false, ne_eq, not_true_eq_false, Run.andThen]

/-- A text is `DATE` exactly when its characters are D, A, T, E. -/
theorem string_eq_date (l : List Char) :
    String.mk l = "DATE" ↔ l = ['D', 'A', 'T', 'E'] := by
  constructor
  · intro h
    exact congrArg String.data h
  · intro h
    rw [h]

/-- The `step` calls of a whole run are those of its rows. -/
theorem executions_of_run (a b c d : Call) (rows : List Call) (z : Call)
    (ha : a ≠ Call.step) (hb : b ≠ Call.step) (hc : c ≠ Call.step) (hd : d ≠ Call.step)
    (hz : z ≠ Call.step) :
    executions ([a, b, c, d] ++ (rows ++ [z])) = executions rows := by
  simp [executions, List.count_cons, ha, hb, hc, hd, hz, List.count_append]

/-- C11 (the code departs from the claim). Scenario A: the column `dob` is
inferred as DATETIME and its cell `"1990-05-02"` is first bound as the Integer
641606400, then bound again as the text, with no `else` between the two binds;
when the `INSERT` is stepped the value in effect at placeholder 3 is the text. -/
theorem create_table_date_text_stays_text :
    type_name reference_host (.str "1990-05-02") = some "DATETIME"
      ∧ xll_sqlite_create_table reference_library reference_engine (.handle 1) "t"
          (.multi scenario_A) (.scalar .missing) (.scalar .missing)
        = (.handle 1,
            [.exec "DROP TABLE IF EXISTS [t]",
             .exec "CREATE TABLE [t]([id] FLOAT, [name] TEXT, [dob] DATETIME)",
             .exec "BEGIN TRANSACTION",
             .prepare "INSERT INTO [t] VALUES(?1, ?2, ?3)",
             .bind 1 (.double 1), .bind 2 (.text "Alice"),
             .bind 3 (.integer 641606400), .bind 3 (.text "1990-05-02"), .step, .reset,
             .bind 1 (.double 2), .bind 2 (.text "Bob"),
             .bind 3 (.integer 501292800), .bind 3 (.text "1985-11-20"), .step, .reset,
             .exec "COMMIT TRANSACTION"])
      ∧ in_effect [.bind 1 (.double 1), .bind 2 (.text "Alice"),
             .bind 3 (.integer 641606400), .bind 3 (.text "1990-05-02")] 3
          = some (.text "1990-05-02") := by
  decide!

/-- The calls for the cell of column `j` are bind calls at position `j + 1`. -/
theorem insert_cell_binds_at (L : Library) (t : OPER) (j : Nat) (o : OPER) :
    ∀ c ∈ insert_cell L t j o, ∃ b, c = Call.bind (j + 1) b := by
  unfold insert_cell
  cases o with
  | str s =>
    by_cases hs : s.length = 0
    · simp [hs]
    · cases hp : L.parse_tm s <;> simp [hs, hp]
  | nil => simp
  | num x => by_cases h : xlfLeft L.toHost t 4 = OPER.str "DATE" <;> simp [h]
  | bool x => by_cases h : xlfLeft L.toHost t 4 = OPER.str "DATE" <;> simp [h]
  | err x => by_cases h : xlfLeft L.toHost t 4 = OPER.str "DATE" <;> simp [h]
  | missing => by_cases h : xlfLeft L.toHost t 4 = OPER.str "DATE" <;> simp [h]
  | int x => by_cases h : xlfLeft L.toHost t 4 = OPER.str "DATE" <;> simp [h]
  | bigdata x => by_cases h : xlfLeft L.toHost t 4 = OPER.str "DATE" <;> simp [h]

/-- The calls of the inner loop step for column `j` bind at position `j + 1`. -/
theorem insert_cell_run_binds_at (L : Library) (schema : List (String × OPER)) (data : Multi)
    (i j : Nat) : ∀ c ∈ (insert_cell_run L schema data i j).calls, ∃ b, c = Call.bind (j + 1) b := by
  unfold insert_cell_run
  cases hc : data.cell i j with
  | none => simp
  | some oij =>
    cases hs : schema.get? j with
    | none => simp
    | some entry => exact insert_cell_binds_at L entry.2 j oij

/-- Calls that do not bind at `pi` leave the value in effect there as it was. -/
theorem in_effect_append_skip (pi : Nat) (l1 : List Call) :
    ∀ l2 : List Call, (∀ c ∈ l2, ∀ b, c ≠ Call.bind pi b) →
      in_effect (l1 ++ l2) pi = in_effect l1 pi := by
  intro l2
  induction l2 using List.reverseRecOn with
  | nil => intro _; simp
  | append_singleton l c ih =>
    intro h
    have hl := ih (fun x hx b => h x (List.mem_append_left _ hx) b)
    have hc := h c (List.mem_append_right _ (List.mem_singleton_self c))
    rw [← List.append_assoc]
    unfold in_effect at hl ⊢
    rw [List.foldl_append, hl]
    cases c with
    | bind p b =>
      have hp : p ≠ pi := fun hp => hc b (by rw [hp])
      simp [hp]
    | exec q => simp
    | prepare q => simp
    | step => simp
    | reset => simp
    | error m => simp

/-- After a bind at `pi` the value in effect there is the one bound. -/
theorem in_effect_append_bind (pi : Nat) (l : List Call) (b : Bound) :
    in_effect (l ++ [Call.bind pi b]) pi = some b := by
  simp [in_effect, List.foldl_append]

/-- The calls of a member of a list are a segment of the calls of the list. -/
theorem flatten_map_split {α : Type} (f : α → List Call) (l : List α) (x : α) (hx : x ∈ l)
    (hnd : l.Nodup) :
    ∃ s t, l = s ++ x :: t ∧ (∀ y ∈ t, y ≠ x)
      ∧ (l.map f).flatten = (s.map f).flatten ++ f x ++ (t.map f).flatten := by
  obtain ⟨s, t, hst⟩ := List.append_of_mem hx
  refine ⟨s, t, hst, ?_, ?_⟩
  · intro y hy hyx
    rw [hst] at hnd
    have h1 := (List.nodup_append.mp hnd).2.1
    have h2 := (List.nodup_cons.mp h1).1
    exact h2 (hyx ▸ hy)
  · rw [hst]
    simp

/-- Inside a well-formed grid and a schema of its width a row's calls are the
calls of its cells, column by column, then `step` and `reset`. -/
theorem insert_row_calls (L : Library) (schema : List (String × OPER)) (data : Multi) (i : Nat)
    (hwf : data.wellFormed) (hlen : schema.length = data.columns) (hi : i < data.rows) :
    (insert_row L schema data i).calls
      = ((List.range data.columns).map
          (fun j => (insert_cell_run L schema data i j).calls)).flatten
        ++ [Call.step, Call.reset] := by
  have hcell : ∀ j ∈ List.range data.columns,
      (insert_cell_run L schema data i j).raised = none := by
    intro j hj
    have hj2 : j < data.columns := List.mem_range.mp hj
    obtain ⟨c, hc⟩ := cell_of_wellFormed data i j hwf hi hj2
    have hs : schema.get? j = some (schema.get ⟨j, by omega⟩) := List.get?_eq_get (by omega)
    unfold insert_cell_run
    rw [hc, hs]
  unfold insert_row
  rw [foldl_andThen_ok (insert_cell_run L schema data i) (List.range data.columns) [] hcell]
  simp [Run.andThen]

/-- The cast is 64-bit: the serial `10^20` in a date column gives the smallest
64-bit integer, not the truncation `8639999999999997449863168`. -/
theorem to_time_is_64_bit :
    truncate (fl (fl ((10 : ℚ) ^ 20 - 25569) * 86400)) = 8639999999999997449863168
      ∧ to_time ((10 : ℚ) ^ 20) = -(2 : Int) ^ 63
      ∧ to_time 25570 = 86400 := by
  decide!

/-- C12. In `xll_sqlite_create_table` (arguments valid, statements accepted,
schema built, fewer than 1000 columns), for every inserted row `i` and every
Number cell `d = data(i, j)`: the calls of the row are a segment of the calls
of the run, and when the row is stepped the value in effect at placeholder
`j + 1` is the Integer `to_time d` when the first four characters of the
column's declared type `schema(j, 1)` are `DATE`, and the Float `d` otherwise.
`to_time d` is the truncation of `(d - 25569) * 86400` whenever that fits the
64-bit `time_t`. An explicit type text is put in upper case before it becomes
the declared type, so the test sees its first four letters in any letter
case. -/
theorem insert_number_by_declared_type (L : Library) (E : Engine) (db : HANDLEX)
    (table : String) (pdata pcolumns ptypes : LPOPER) (schema : List (String × OPER))
    (i j : Nat) (d : double)
    (hdata : pdata.truthy L = true)
    (hcols : pcolumns.is_missing = true ∨ pdata.grid.columns = pcolumns.grid.size)
    (htypes : ptypes.is_missing = true
      ∨ (pdata.grid.columns = ptypes.grid.size ∧ 1 < pdata.grid.rows))
    (hdb : E.db_valid db = true) (hexec : ∀ sql, E.exec sql = 0)
    (hprep : ∀ sql, E.prepare sql = 0) (hwf : pdata.grid.wellFormed)
    (hschema : build_schema L pdata.grid pcolumns ptypes (List.range pdata.grid.columns)
      = .ok schema)
    (hwidth : pdata.grid.columns < 1000)
    (hstart : (if pcolumns.is_missing then 1 else 0) ≤ i) (hi : i < pdata.grid.rows)
    (hj : j < pdata.grid.columns) (hcell : pdata.grid.cell i j = some (.num d)) :
    ∃ (entry : String × OPER) (binds pre post : List Call),
      schema.get? j = some entry
      ∧ schema_entry L pdata.grid pcolumns ptypes j = .ok entry
      ∧ (xll_sqlite_create_table L E db table pdata pcolumns ptypes).1 = db
      ∧ (xll_sqlite_create_table L E db table pdata pcolumns ptypes).2
          = pre ++ (binds ++ [Call.step, Call.reset]) ++ post
      ∧ (insert_row L schema pdata.grid i).calls = binds ++ [Call.step, Call.reset]
      ∧ in_effect binds (j + 1)
          = some (if xlfLeft L.toHost entry.2 4 = .str "DATE" then .integer (to_time d)
                  else .double d)
      ∧ (-(2 : Int) ^ 63 ≤ truncate (fl (fl (d - 25569) * 86400))
            ∧ truncate (fl (fl (d - 25569) * 86400)) < (2 : Int) ^ 63 →
          to_time d = truncate (fl (fl (d - 25569) * 86400)))
      ∧ (∀ t : String, entry.2 = .str t →
          (xlfLeft L.toHost entry.2 4 = .str "DATE" ↔ t.data.take 4 = ['D', 'A', 'T', 'E']))
      ∧ (∀ t : String, ptypes.truthy L = true → ptypes.grid.item j = some (.str t) →
          L.truthy (xlfUpper L.toHost (.str t)) = true →
          entry.2 = .str (String.mk (t.data.map Char.toUpper))
            ∧ (xlfLeft L.toHost entry.2 4 = .str "DATE"
                ↔ (t.data.take 4).map Char.toUpper = ['D', 'A', 'T', 'E'])) := by
  obtain ⟨ii, hii⟩ := insert_text_some table pdata.grid.columns hwidth
  have hcalls := create_table_calls L E db table pdata pcolumns ptypes schema ii hdata hcols
    htypes hdb hexec hprep hwf hschema hii
  obtain ⟨hlen0, hentries⟩ := build_schema_entries L pdata.grid pcolumns ptypes _ schema hschema
  have hlen : schema.length = pdata.grid.columns := by simpa using hlen0
  have hget : (List.range pdata.grid.columns).get? j = some j := by
    rw [List.get?_eq_getElem?, List.getElem?_range hj]
  obtain ⟨entry, hentry, hse⟩ := hentries j j hget
  -- the calls of row `i` inside the run
  have himem : i ∈ List.range' (if pcolumns.is_missing then 1 else 0)
      (pdata.grid.rows - (if pcolumns.is_missing then 1 else 0)) := by
    apply List.mem_range'_1.mpr
    omega
  obtain ⟨rs, rt, _, _, hrows⟩ := flatten_map_split
    (fun i => (insert_row L schema pdata.grid i).calls) _ i himem (List.nodup_range' _ _)
  have hrow := insert_row_calls L schema pdata.grid i hwf hlen hi
  -- the calls of cell `j` inside the row
  obtain ⟨cs, ct, _, hct, hcols2⟩ := flatten_map_split
    (fun j => (insert_cell_run L schema pdata.grid i j).calls) _ j (List.mem_range.mpr hj)
    (List.nodup_range _)
  have hcellrun : (insert_cell_run L schema pdata.grid i j).calls
      = [Call.bind (j + 1)
          (if xlfLeft L.toHost entry.2 4 = .str "DATE" then .integer (to_time d)
           else .double d)] := by
    unfold insert_cell_run
    rw [hcell, hentry]
    by_cases h : xlfLeft L.toHost entry.2 4 = OPER.str "DATE" <;> simp [insert_cell, h, as_num]
  refine ⟨entry, _,
    [Call.exec ("DROP TABLE IF EXISTS [" ++ table ++ "]"),
      Call.exec ("CREATE TABLE [" ++ table ++ "](" ++ schema_text L schema ++ ")"),
      Call.exec "BEGIN TRANSACTION", Call.prepare ii]
      ++ (rs.map (fun i => (insert_row L schema pdata.grid i).calls)).flatten,
    (rt.map (fun i => (insert_row L schema pdata.grid i).calls)).flatten
      ++ [Call.exec "COMMIT TRANSACTION"],
    hentry, hse, by rw [hcalls], ?_, hrow, ?_, ?_, ?_, ?_⟩
  · rw [hcalls, hrows, hrow]
    simp only [List.append_assoc]
  · rw [hcols2, hcellrun, in_effect_append_skip, in_effect_append_bind]
    intro c hc b hcb
    obtain ⟨j2, hj2, hcj2⟩ : ∃ j2 ∈ ct, c ∈ (insert_cell_run L schema pdata.grid i j2).calls := by
      simpa using hc
    obtain ⟨b2, hb2⟩ := insert_cell_run_binds_at L schema pdata.grid i j2 c hcj2
    rw [hb2] at hcb
    simp only [Call.bind.injEq] at hcb
    exact hct j2 hj2 (by omega)
  · intro hr
    unfold to_time truncToInt
    rw [if_pos hr]
  · intro t ht
    rw [ht]
    simp only [xlfLeft, OPER.str.injEq]
    exact string_eq_date _
  · intro t htrue hitem hupper
    have he2 : entry.2 = .str (String.mk (t.data.map Char.toUpper)) := by
      have he := hse
      unfold schema_entry at he
      cases hc : (if pcolumns.truthy L then pcolumns.grid.item j else pdata.grid.cell 0 j) with
      | none => simp [hc] at he
      | some c =>
        simp only [hc, htrue, if_true, hitem, hupper, Except.ok.injEq] at he
        rw [← he]
        rfl
    refine ⟨he2, ?_⟩
    rw [he2]
    simp only [xlfLeft, OPER.str.injEq, List.map_take]
    exact string_eq_date _

/-- C12 at a concrete input: the column `d` declared `date` (lower case) with
the serials 25569 and 25570; when row 1 is stepped the value in effect at
placeholder 1 is the Integer 86400. -/
theorem insert_number_by_declared_type_witness :
    ∃ binds : List Call,
      (insert_row reference_library [("[d]", .str "DATE")]
          ⟨2, 1, [.num 25569, .num 25570]⟩ 1).calls = binds ++ [Call.step, Call.reset]
      ∧ (∃ pre post,
          (xll_sqlite_create_table reference_library reference_engine (.handle 1) "t"
              (.multi ⟨2, 1, [.num 25569, .num 25570]⟩) (.scalar (.str "d"))
              (.scalar (.str "date"))).2
            = pre ++ (binds ++ [Call.step, Call.reset]) ++ post)
      ∧ in_effect binds 1 = some (.integer 86400) := by
  obtain ⟨entry, binds, pre, post, hentry, _, _, hrun, hrow, heff, _⟩ :=
    insert_number_by_declared_type reference_library reference_engine (.handle 1) "t"
      (.multi ⟨2, 1, [.num 25569, .num 25570]⟩) (.scalar (.str "d")) (.scalar (.str "date"))
      [("[d]", .str "DATE")] 1 0 25570
      rfl (Or.inr rfl) (Or.inr ⟨rfl, by decide⟩) (by decide) (fun _ => rfl) (fun _ => rfl) rfl
      (by decide!) (by decide) (by decide) (by decide) (by decide) rfl
  have he : entry = ("[d]", OPER.str "DATE") := by
    simpa using hentry.symm
  subst he
  refine ⟨binds, hrow, ⟨pre, post, hrun⟩, ?_⟩
  rw [heff]
  decide!

/-- C15. Validation fails fast: when the data argument is not true (it is
missing), or a column-name list is given whose size differs from the data's
column count, or a type list is given whose size differs from the column count
or while the data has fewer than 2 rows, the call answers `INVALID_HANDLEX`
and the only thing it does is report the error: no statement reaches the
engine. -/
theorem create_table_validation_fails_fast (L : Library) (E : Engine) (db : HANDLEX)
    (table : String) (pdata pcolumns ptypes : LPOPER)
    (h : pdata.truthy L = false
      ∨ (pcolumns.is_missing = false ∧ pdata.grid.columns ≠ pcolumns.grid.size)
      ∨ (ptypes.is_missing = false
          ∧ (pdata.grid.columns ≠ ptypes.grid.size ∨ pdata.grid.rows < 2))) :
    ∃ msg, xll_sqlite_create_table L E db table pdata pcolumns ptypes
      = (.INVALID_HANDLEX, [.error msg]) := by
  unfold xll_sqlite_create_table xll_sqlite_create_table_try
  by_cases h1 : pdata.truthy L = true
  · by_cases h2 : (pcolumns.is_missing || pdata.grid.columns == pcolumns.grid.size) = true
    · have h3 : (ptypes.is_missing
          || (pdata.grid.columns == ptypes.grid.size && decide (1 < pdata.grid.rows))) = false := by
        rcases h with h | h | h
        · rw [h] at h1; cases h1
        · exfalso
          rw [h.1] at h2
          simp at h2
          exact h.2 h2
        · rcases h with ⟨hm, hs | hr⟩
          · simp [hm, hs]
          · have : ¬ 1 < pdata.grid.rows := by omega
            simp [hm, this]
      exact ⟨"ensure: columns(*pdata) == size(*ptypes) && rows(*pdata) > 1",
        by simp [h1, h2, h3]⟩
    · exact ⟨"ensure: columns(*pdata) == size(*pcolumns)", by simp [h1, h2]⟩
  · exact ⟨"ensure: pdata && *pdata", by simp [h1]⟩

/-- C15 at a concrete input: two column names for the three columns of
scenario A. -/
theorem create_table_validation_fails_fast_witness :
    ∃ msg, xll_sqlite_create_table reference_library reference_engine (.handle 1) "t"
        (.multi scenario_A) (.multi ⟨1, 2, [.str "a", .str "b"]⟩) (.scalar .missing)
      = (.INVALID_HANDLEX, [.error msg]) :=
  create_table_validation_fails_fast reference_library reference_engine (.handle 1) "t"
    (.multi scenario_A) (.multi ⟨1, 2, [.str "a", .str "b"]⟩) (.scalar .missing)
    (Or.inr (Or.inl ⟨rfl, by decide⟩))

/-- The insert loop by design. When the arguments pass the checks, the engine
accepts the statements, the schema and the text of the `INSERT` are built: the prepared `INSERT` is
executed once for each of the rows `start .. rows - 1`, where `start` is 1 when
the column-name argument is missing and 0 otherwise; each column is named after
`data(0, j)` when the column-name argument is not true and after `column[j]`
when it is. So with the argument left out there are `rows - 1` executions from
row 1 and the names come from data row 0, and with a list that is true there
are `rows` executions from row 0 and the names come from the list. -/
theorem create_table_insert_rows (L : Library) (E : Engine) (db : HANDLEX) (table : String)
    (pdata pcolumns ptypes : LPOPER) (schema : List (String × OPER)) (ii : String)
    (hdata : pdata.truthy L = true)
    (hcols : pcolumns.is_missing = true ∨ pdata.grid.columns = pcolumns.grid.size)
    (htypes : ptypes.is_missing = true
      ∨ (pdata.grid.columns = ptypes.grid.size ∧ 1 < pdata.grid.rows))
    (hdb : E.db_valid db = true) (hexec : ∀ sql, E.exec sql = 0)
    (hprep : ∀ sql, E.prepare sql = 0) (hwf : pdata.grid.wellFormed)
    (hschema : build_schema L pdata.grid pcolumns ptypes (List.range pdata.grid.columns)
      = .ok schema)
    (hii : insert_text table pdata.grid.columns = some ii) :
    xll_sqlite_create_table L E db table pdata pcolumns ptypes
      = (db, [Call.exec ("DROP TABLE IF EXISTS [" ++ table ++ "]"),
              Call.exec ("CREATE TABLE [" ++ table ++ "](" ++ schema_text L schema ++ ")"),
              Call.exec "BEGIN TRANSACTION",
              Call.prepare ii]
            ++ (((List.range' (if pcolumns.is_missing then 1 else 0)
                  (pdata.grid.rows - (if pcolumns.is_missing then 1 else 0))).map
                  (fun i => (insert_row L schema pdata.grid i).calls)).flatten
              ++ [Call.exec "COMMIT TRANSACTION"]))
    ∧ (∀ i, i < pdata.grid.rows →
        (insert_row L schema pdata.grid i).raised = none
          ∧ executions (insert_row L schema pdata.grid i).calls = 1)
    ∧ executions (xll_sqlite_create_table L E db table pdata pcolumns ptypes).2
        = pdata.grid.rows - (if pcolumns.is_missing then 1 else 0)
    ∧ (∀ j, j < pdata.grid.columns → ∃ c entry,
        (if pcolumns.truthy L then pcolumns.grid.item j else pdata.grid.cell 0 j) = some c
          ∧ schema.get? j = some entry ∧ entry.1 = "[" ++ L.to_string c ++ "]")
    ∧ (pcolumns.is_missing = true → pcolumns.truthy L = false →
        executions (xll_sqlite_create_table L E db table pdata pcolumns ptypes).2
            = pdata.grid.rows - 1
          ∧ ∀ j, j < pdata.grid.columns → ∃ c entry, pdata.grid.cell 0 j = some c
              ∧ schema.get? j = some entry ∧ entry.1 = "[" ++ L.to_string c ++ "]")
    ∧ (pcolumns.is_missing = false → pcolumns.truthy L = true →
        executions (xll_sqlite_create_table L E db table pdata pcolumns ptypes).2
            = pdata.grid.rows
          ∧ ∀ j, j < pdata.grid.columns → ∃ c entry, pcolumns.grid.item j = some c
              ∧ schema.get? j = some entry ∧ entry.1 = "[" ++ L.to_string c ++ "]") := by
  have hcalls := create_table_calls L E db table pdata pcolumns ptypes schema ii hdata hcols
    htypes hdb hexec hprep hwf hschema hii
  obtain ⟨hlen0, hentries⟩ := build_schema_entries L pdata.grid pcolumns ptypes _ schema hschema
  have hlen : schema.length = pdata.grid.columns := by simpa using hlen0
  have hexe : executions (xll_sqlite_create_table L E db table pdata pcolumns ptypes).2
      = pdata.grid.rows - (if pcolumns.is_missing then 1 else 0) := by
    rw [hcalls]
    show executions ([_, _, _, _] ++ (_ ++ [_])) = _
    rw [executions_of_run _ _ _ _ _ _ (by simp) (by simp) (by simp) (by simp) (by simp)]
    exact (insert_loop_ok L schema pdata.grid _ hwf hlen).2
  have hnames : ∀ j, j < pdata.grid.columns → ∃ c entry,
      (if pcolumns.truthy L then pcolumns.grid.item j else pdata.grid.cell 0 j) = some c
        ∧ schema.get? j = some entry ∧ entry.1 = "[" ++ L.to_string c ++ "]" := by
    intro j hj
    have hget : (List.range pdata.grid.columns).get? j = some j := by
      rw [List.get?_eq_getElem?, List.getElem?_range hj]
    obtain ⟨entry, he1, he2⟩ := hentries j j hget
    obtain ⟨c, hc1, hc2⟩ := schema_entry_name L pdata.grid pcolumns ptypes j entry he2
    exact ⟨c, entry, hc1, he1, hc2⟩
  refine ⟨hcalls, fun i hi => insert_row_ok L schema pdata.grid i hwf hlen hi, hexe, hnames,
    ?_, ?_⟩
  · intro hm ht
    refine ⟨by rw [hexe, hm]; rfl, fun j hj => ?_⟩
    have := hnames j hj
    simpa [ht] using this
  · intro hm ht
    refine ⟨by rw [hexe, hm]; rfl, fun j hj => ?_⟩
    have := hnames j hj
    simpa [ht] using this

/-- The insert loop on scenario A with the column names left out: the names
come from row 0 and the `INSERT` is executed for rows 1 and 2. -/
theorem create_table_insert_rows_witness :
    executions (xll_sqlite_create_table reference_library reference_engine (.handle 1) "t"
        (.multi scenario_A) (.scalar .missing) (.scalar .missing)).2
      = (LPOPER.multi scenario_A).grid.rows - 1 :=
  ((create_table_insert_rows reference_library reference_engine (.handle 1) "t"
      (.multi scenario_A) (.scalar .missing) (.scalar .missing)
      [("[id]", .str "FLOAT"), ("[name]", .str "TEXT"), ("[dob]", .str "DATETIME")]
      "INSERT INTO [t] VALUES(?1, ?2, ?3)"
      rfl (Or.inl rfl) (Or.inl rfl) (by decide) (fun _ => rfl) (fun _ => rfl) rfl
      (by decide!) (by decide!)).2.2.2.2.1 rfl rfl).1

/-- C16 (the code departs from the claim). A column-name argument that is
given but blank: for the one-column data `[["id"], [7]]` and the empty text as
column names, the name `[id]` is taken from data row 0 (the argument is not
true), yet the loop starts at row 0 (the argument is not missing) and the
naming row is inserted as data; the `INSERT` is executed 2 times, not 1. -/
theorem create_table_blank_names_insert_header :
    (LPOPER.scalar (.str "")).is_missing = false
      ∧ (LPOPER.scalar (.str "")).truthy reference_library = false
      ∧ xll_sqlite_create_table reference_library reference_engine (.handle 1) "t"
          (.multi ⟨2, 1, [.str "id", .num 7]⟩) (.scalar (.str "")) (.scalar .missing)
        = (.handle 1,
            [.exec "DROP TABLE IF EXISTS [t]", .exec "CREATE TABLE [t]([id] FLOAT)",
             .exec "BEGIN TRANSACTION", .prepare "INSERT INTO [t] VALUES(?1)",
             .bind 1 (.text "id"), .step, .reset,
             .bind 1 (.double 7), .step, .reset,
             .exec "COMMIT TRANSACTION"])
      ∧ executions (xll_sqlite_create_table reference_library reference_engine (.handle 1) "t"
          (.multi ⟨2, 1, [.str "id", .num 7]⟩) (.scalar (.str "")) (.scalar .missing)).2 = 2 := by
  decide!

/-- C18 (the code departs from the claim). A data grid of exactly one row with
no type list (and no column list) passes the three checks, and the schema loop
then reads `data(1, 0)`, a row the grid does not have: the row count is only
checked when a type list is given, which is when row 1 is not needed. The same
happens with an explicit column name. -/
theorem create_table_reads_past_one_row :
    (LPOPER.multi ⟨1, 2, [.str "a", .str "b"]⟩).truthy reference_library = true
      ∧ (LPOPER.multi ⟨1, 2, [.str "a", .str "b"]⟩).grid.rows = 1
      ∧ (LPOPER.multi ⟨1, 2, [.str "a", .str "b"]⟩).grid.cell 1 0 = none
      ∧ inferred_type reference_library ⟨1, 2, [.str "a", .str "b"]⟩ 0
          = .error "index out of range"
      ∧ xll_sqlite_create_table reference_library reference_engine (.handle 1) "t"
          (.multi ⟨1, 2, [.str "a", .str "b"]⟩) (.scalar .missing) (.scalar .missing)
        = (.INVALID_HANDLEX,
            [.exec "DROP TABLE IF EXISTS [t]", .error "index out of range"])
      ∧ xll_sqlite_create_table reference_library reference_engine (.handle 1) "t"
          (.multi ⟨1, 1, [.num 5]⟩) (.scalar (.str "n")) (.scalar .missing)
        = (.INVALID_HANDLEX,
            [.exec "DROP TABLE IF EXISTS [t]", .error "index out of range"]) := by
  decide!

end XllSqlite
